import Mathlib

/-!
Verification development for the BrainDrive Evaluator plugin.

The TypeScript sources under `src/` are shallowly embedded here:
pure functions become Lean functions, the mutable `ModelService`
token-accounting object becomes an explicit state record threaded through
the call model, `async` code that can throw becomes `Except String`-valued
functions, and the external model gateway (HTTP calls to OpenAI and the
BrainDrive backend), together with the opaque prompt text imported from the
WhyFinder plugin, is a record of abstract functions (`Env`).

JavaScript numbers are modelled as rationals (`ℚ`): no claim under study
depends on rounding of IEEE doubles, and equalities proved over `ℚ` imply
the spec's 1e-6 tolerance statements.  Wall-clock timestamps and generated
run identifiers are side data no claim mentions; they are dropped from the
embedded records.
-/

namespace BDEval

/-! ## JavaScript value model -/

/-- A JSON value as produced by `JSON.parse`.  JavaScript numbers are
modelled as rationals. -/
inductive Json where
  | null : Json
  | bool (b : Bool) : Json
  | num (q : ℚ) : Json
  | str (s : String) : Json
  | arr (xs : List Json) : Json
  | obj (fields : List (String × Json)) : Json

/-- Field access `v[key]` on an object; `none` models JavaScript
`undefined` (non-objects and absent keys). -/
def Json.getField : Json → String → Option Json
  | .obj fields, key => (fields.find? (fun p => p.1 = key)).map (·.2)
  | _, _ => none

/-- JavaScript truthiness of a defined value. -/
def Json.truthy : Json → Bool
  | .null => false
  | .bool b => b
  | .num q => q ≠ 0
  | .str s => s ≠ ""
  | .arr _ => true
  | .obj _ => true

/-- JavaScript truthiness where `none` is `undefined`. -/
def optTruthy : Option Json → Bool
  | none => false
  | some v => v.truthy

/-- `v || dflt`: the value when truthy, otherwise the default. -/
def jsOr (v : Option Json) (dflt : Json) : Json :=
  match v with
  | some w => if w.truthy then w else dflt
  | none => dflt

/-- The string content of a value where the TypeScript types promise a
string; other shapes keep a printed stand-in (JavaScript would coerce). -/
def Json.asString : Json → String
  | .str s => s
  | .null => "null"
  | .bool b => if b then "true" else "false"
  | .num q => toString q
  | .arr _ => "[array]"
  | .obj _ => "[object Object]"

/-- `Array.isArray(v) ? v : []`. -/
def jsArrayOrEmpty (v : Option Json) : List Json :=
  match v with
  | some (.arr xs) => xs
  | _ => []

/-- Lower-case a string (the sources only case-fold ASCII text). -/
def jsLower (s : String) : String := String.mk (s.toList.map Char.toLower)

/-- Upper-case a string (the sources only case-fold ASCII text). -/
def jsUpper (s : String) : String := String.mk (s.toList.map Char.toUpper)

/-- Whitespace as matched by the regex class `\s` (the common characters). -/
def isJsWs (c : Char) : Bool :=
  c = ' ' ∨ c = '\t' ∨ c = '\n' ∨ c = '\r' ∨ c = '\x0c' ∨ c = '\x0b'

/-- One maximal-whitespace-run split step over the character list.  The
fuel argument bounds the recursion; with fuel at least the list length the
zero-fuel equation is never reached. -/
def jsSplitWsAux : ℕ → List Char → List Char → List String
  | _, [], cur => [String.mk cur.reverse]
  | fuel + 1, c :: rest, cur =>
    if isJsWs c then
      String.mk cur.reverse :: jsSplitWsAux fuel (rest.dropWhile isJsWs) []
    else
      jsSplitWsAux fuel rest (c :: cur)
  | 0, cs, cur => [String.mk (cur.reverse ++ cs)]

/-- `s.split(/\s+/)`: split on maximal whitespace runs, keeping the empty
leading (and trailing) piece exactly as JavaScript does. -/
def jsSplitWs (s : String) : List String :=
  jsSplitWsAux s.toList.length s.toList []

/-- Whether `needle` is a prefix of `hay` (character lists). -/
def listPrefixOf : List Char → List Char → Bool
  | [], _ => true
  | _ :: _, [] => false
  | a :: as, b :: bs => a = b && listPrefixOf as bs

/-- Whether `needle` occurs somewhere in `hay` (character lists). -/
def listContainsSeq (needle : List Char) : List Char → Bool
  | [] => listPrefixOf needle []
  | c :: rest => listPrefixOf needle (c :: rest) || listContainsSeq needle rest

/-- `s.includes(sub)`. -/
def jsIncludes (s sub : String) : Bool := listContainsSeq sub.toList s.toList

/-- `s.trim()`: strip leading and trailing whitespace. -/
def jsTrim (s : String) : String :=
  String.mk (((s.toList.dropWhile isJsWs).reverse.dropWhile isJsWs).reverse)

/-- `s.startsWith(prefixStr)`. -/
def jsStartsWith (s prefixStr : String) : Bool :=
  listPrefixOf prefixStr.toList s.toList

/-- Decimal digits of a character list, as value and count. -/
def digitsVal : List Char → ℚ × ℕ → ℚ × ℕ
  | [], acc => acc
  | c :: rest, (v, n) =>
    if c.isDigit then digitsVal rest (v * 10 + (c.toNat - '0'.toNat : ℕ), n + 1)
    else (v, n)

/-- Characters remaining after the leading digit run. -/
def dropDigits (cs : List Char) : List Char := cs.dropWhile Char.isDigit

/-- `parseFloat(s)`: skip leading whitespace, read an optional sign, a digit
run, an optional fraction and an optional exponent; `none` models `NaN`
(no digits).  JavaScript's `Infinity` literals are not representable in `ℚ`
and are modelled as `NaN`; no claim under study exercises them. -/
def jsParseFloat (s : String) : Option ℚ :=
  let cs := s.toList.dropWhile isJsWs
  let (sign, cs) : ℚ × List Char :=
    match cs with
    | '-' :: rest => (-1, rest)
    | '+' :: rest => (1, rest)
    | _ => (1, cs)
  let (ipart, icount) := digitsVal cs (0, 0)
  let cs := dropDigits cs
  let (fpart, fcount, cs) : ℚ × ℕ × List Char :=
    match cs with
    | '.' :: rest =>
      let (fv, fc) := digitsVal rest (0, 0)
      (fv, fc, dropDigits rest)
    | _ => (0, 0, cs)
  if icount = 0 ∧ fcount = 0 then none
  else
    let mantissa : ℚ := ipart + fpart / (10 : ℚ) ^ fcount
    let expo : Option ℤ :=
      match cs with
      | 'e' :: rest => readExp rest
      | 'E' :: rest => readExp rest
      | _ => some 0
    match expo with
    | some e => some (sign * mantissa * (10 : ℚ) ^ e)
    | none => some (sign * mantissa)
where
  /-- An exponent after `e`/`E`; `none` when no digits follow (the exponent
  marker is then not part of the parsed number). -/
  readExp (cs : List Char) : Option ℤ :=
    let (esign, cs) : ℤ × List Char :=
      match cs with
      | '-' :: rest => (-1, rest)
      | '+' :: rest => (1, rest)
      | _ => (1, cs)
    let (ev, ec) := digitsVal cs (0, 0)
    if ec = 0 then none else some (esign * ev.num)

/-! ## Shared data model (src/src/types.ts)

Wall-clock ids, timestamps and durations are side data no claim mentions
and are omitted from the records. -/

/-- One judged metric (types.ts `MetricScore`).  The `comment` field is
typed `string` in TypeScript but populated from unchecked JSON, so it is
kept as a `Json` value here. -/
structure MetricScore where
  score : ℚ
  comment : Json
  evidence : List Json

/-- The seven core metrics (types.ts `EvaluationMetrics`). -/
structure EvaluationMetrics where
  clarity : MetricScore
  structuralCorrectness : MetricScore
  consistency : MetricScore
  coverage : MetricScore
  hallucination : MetricScore
  decisionExpertise : MetricScore
  safety : MetricScore

/-- types.ts `METRIC_WEIGHTS`, in object-literal insertion order (the order
`Object.entries` yields). -/
def METRIC_WEIGHTS : List (String × ℚ) :=
  [("clarity", 0.15), ("structuralCorrectness", 0.10), ("consistency", 0.15),
   ("coverage", 0.15), ("hallucination", 0.20), ("decisionExpertise", 0.15),
   ("safety", 0.10)]

/-- Dynamic field access `(metrics as any)[key]` on the metrics record. -/
def EvaluationMetrics.get (m : EvaluationMetrics) : String → Option MetricScore
  | "clarity" => some m.clarity
  | "structuralCorrectness" => some m.structuralCorrectness
  | "consistency" => some m.consistency
  | "coverage" => some m.coverage
  | "hallucination" => some m.hallucination
  | "decisionExpertise" => some m.decisionExpertise
  | "safety" => some m.safety
  | _ => none

/-- types.ts `PinpointedIssue` as the judge services populate it. -/
structure PinpointedIssue where
  exchange : Option Json
  exactPhrase : Option Json
  location : Json
  issue : Json
  severity : String
  suggestion : Option Json

/-- types.ts `JudgeReport` (identifying strings kept, timestamp dropped;
the optional `tokenUsage` field is never written by the judge services and
is omitted).  The comment lists are typed `string[]` but populated from
unchecked JSON, so they are kept as `Json` values. -/
structure JudgeReport where
  modelName : String
  scenarioName : String
  metrics : EvaluationMetrics
  overallScore : ℚ
  generalComments : List Json
  pros : List Json
  cons : List Json
  pinpointedIssues : List PinpointedIssue

/-- types.ts `TranscriptMessage` (timestamp dropped). -/
structure TranscriptMessage where
  role : String
  content : String
  phase : Option String
  exchangeNumber : Option Nat
deriving DecidableEq

/-- A chat message sent to a model gateway. -/
structure ChatMsg where
  role : String
  content : String
deriving DecidableEq

/-! ## Token accounting state (src/src/services/modelService.ts)

The mutable fields of the `ModelService` instance become an explicit state
record threaded through every modelled gateway call. -/

/-- `totalTokenUsage` of modelService.ts. -/
structure RoleTotals where
  syntheticInput : ℕ
  syntheticOutput : ℕ
  candidateInput : ℕ
  candidateOutput : ℕ
  judgeInput : ℕ
  judgeOutput : ℕ
deriving DecidableEq

/-- Per-phase candidate/synthetic token counters. -/
structure PhaseAgg where
  candidateInput : ℕ
  candidateOutput : ℕ
  syntheticInput : ℕ
  syntheticOutput : ℕ
deriving DecidableEq

/-- Judge-phase token counters. -/
structure JudgeAgg where
  input : ℕ
  output : ℕ
deriving DecidableEq

/-- `phaseTokenUsage` of modelService.ts. -/
structure PhaseTokens where
  whyFinder : PhaseAgg
  ikigai : PhaseAgg
  decisionHelper : PhaseAgg
  judge : JudgeAgg
deriving DecidableEq

/-- The `currentPhase` discriminator of modelService.ts. -/
inductive PhaseKey where
  | whyFinder | ikigai | decisionHelper | judge
deriving DecidableEq

/-- The mutable state of the `ModelService` instance. -/
structure MSState where
  totalTokenUsage : RoleTotals
  phaseTokenUsage : PhaseTokens
  currentPhase : PhaseKey
  lastTokenUsage : ℕ × ℕ
deriving DecidableEq

/-- All-zero counters. -/
def zeroPhaseTokens : PhaseTokens :=
  ⟨⟨0, 0, 0, 0⟩, ⟨0, 0, 0, 0⟩, ⟨0, 0, 0, 0⟩, ⟨0, 0⟩⟩

/-- `setCurrentPhase`. -/
def setCurrentPhase (phase : PhaseKey) (st : MSState) : MSState :=
  { st with currentPhase := phase }

/-- `resetTokenTracking`. -/
def resetTokenTracking (st : MSState) : MSState :=
  { st with totalTokenUsage := ⟨0, 0, 0, 0, 0, 0⟩, phaseTokenUsage := zeroPhaseTokens }

/-- Add candidate/synthetic tokens to the `currentPhase` slot of the
per-phase breakdown (`this.phaseTokenUsage[this.currentPhase]`). -/
def PhaseTokens.addToPhase (pt : PhaseTokens) (phase : PhaseKey)
    (dI dO sI sO : ℕ) : PhaseTokens :=
  match phase with
  | .whyFinder => { pt with whyFinder := ⟨pt.whyFinder.candidateInput + dI,
      pt.whyFinder.candidateOutput + dO, pt.whyFinder.syntheticInput + sI,
      pt.whyFinder.syntheticOutput + sO⟩ }
  | .ikigai => { pt with ikigai := ⟨pt.ikigai.candidateInput + dI,
      pt.ikigai.candidateOutput + dO, pt.ikigai.syntheticInput + sI,
      pt.ikigai.syntheticOutput + sO⟩ }
  | .decisionHelper => { pt with decisionHelper := ⟨pt.decisionHelper.candidateInput + dI,
      pt.decisionHelper.candidateOutput + dO, pt.decisionHelper.syntheticInput + sI,
      pt.decisionHelper.syntheticOutput + sO⟩ }
  | .judge => pt

/-- The token-usage recording block of `sendOpenAIRequest` (modelService.ts
lines 571-593): input/output counts always go to the synthetic-role totals;
when the current phase is `judge` they are additionally added to the judge
phase slot and the judge-role totals, otherwise to the current phase's
synthetic slots. -/
def recordOpenAIUsage (inputTokens outputTokens : ℕ) (st : MSState) : MSState :=
  let st := { st with
    lastTokenUsage := (inputTokens, outputTokens),
    totalTokenUsage := { st.totalTokenUsage with
      syntheticInput := st.totalTokenUsage.syntheticInput + inputTokens,
      syntheticOutput := st.totalTokenUsage.syntheticOutput + outputTokens } }
  if st.currentPhase = .judge then
    { st with
      phaseTokenUsage := { st.phaseTokenUsage with judge :=
        ⟨st.phaseTokenUsage.judge.input + inputTokens,
         st.phaseTokenUsage.judge.output + outputTokens⟩ },
      totalTokenUsage := { st.totalTokenUsage with
        judgeInput := st.totalTokenUsage.judgeInput + inputTokens,
        judgeOutput := st.totalTokenUsage.judgeOutput + outputTokens } }
  else
    { st with phaseTokenUsage :=
      st.phaseTokenUsage.addToPhase st.currentPhase 0 0 inputTokens outputTokens }

/-- The token-usage recording block of `sendCandidateModelRequest`
(modelService.ts lines 693-723): counts go to the candidate-role totals
and, when the phase is not `judge`, to the phase's candidate slots. -/
def recordCandidateUsage (inputTokens outputTokens : ℕ) (setLast : Bool)
    (st : MSState) : MSState :=
  let st := { st with
    lastTokenUsage := if setLast then (inputTokens, outputTokens) else st.lastTokenUsage,
    totalTokenUsage := { st.totalTokenUsage with
      candidateInput := st.totalTokenUsage.candidateInput + inputTokens,
      candidateOutput := st.totalTokenUsage.candidateOutput + outputTokens } }
  if st.currentPhase = .judge then st
  else
    { st with phaseTokenUsage :=
      st.phaseTokenUsage.addToPhase st.currentPhase inputTokens outputTokens 0 0 }

/-- The `total` block computed by `getTokenUsage`. -/
structure TotalsIOG where
  input : ℕ
  output : ℕ
  grand : ℕ
deriving DecidableEq

/-- The value returned by `getTokenUsage`: the phase breakdown plus a
role-derived grand total. -/
structure TokenUsageSnapshot where
  whyFinder : PhaseAgg
  ikigai : PhaseAgg
  decisionHelper : PhaseAgg
  judge : JudgeAgg
  total : TotalsIOG
deriving DecidableEq

/-- `getTokenUsage` (modelService.ts lines 107-118). -/
def getTokenUsage (st : MSState) : TokenUsageSnapshot :=
  let totalInput := st.totalTokenUsage.syntheticInput +
    st.totalTokenUsage.candidateInput + st.totalTokenUsage.judgeInput
  let totalOutput := st.totalTokenUsage.syntheticOutput +
    st.totalTokenUsage.candidateOutput + st.totalTokenUsage.judgeOutput
  { whyFinder := st.phaseTokenUsage.whyFinder,
    ikigai := st.phaseTokenUsage.ikigai,
    decisionHelper := st.phaseTokenUsage.decisionHelper,
    judge := st.phaseTokenUsage.judge,
    total := ⟨totalInput, totalOutput, totalInput + totalOutput⟩ }

/-! ## Run data model (types.ts, part_007 locals) -/

/-- types.ts `ModelInfo` (provider routing fields dropped: they only feed
the HTTP request, which is abstracted behind `Env`). -/
structure ModelInfo where
  id : String
  name : String
  provider : String
deriving DecidableEq

/-- types.ts `Scenario`. -/
structure Scenario where
  id : String
  name : String
  personaSummary : String
  constraints : List String
  goals : List String
  conflictPoints : List String
  redLines : List String
  starterContext : String
deriving DecidableEq

/-- types.ts `EvaluationConfig`. -/
structure EvaluationConfig where
  scenariosPerModel : ℕ
  randomScenario : Bool
  candidateTemperature : ℚ
  judgeTemperature : ℚ
  syntheticUserPrompt : String
deriving DecidableEq

/-- The `{temperature, maxTokens}` options of the gateway calls. -/
structure ReqOptions where
  temperature : ℚ
  maxTokens : ℕ
deriving DecidableEq

/-- The orchestrator's local `WhyProfile` (part_007).  The `whatYouLove` /
`whatYouAreGoodAt` fields are typed `string[]` but filled with
`parsed.x || []` from unchecked JSON, so they are kept as `Json`. -/
structure WhyProfile where
  summary : Json
  patterns : Json
  whyStatement : Json
  whyExplanation : String
  whatYouLove : Json
  whatYouAreGoodAt : Json
  modelUsed : String
  exchangeCount : ℕ

/-- The orchestrator's local `IkigaiBucket`; same `Json` caveat. -/
structure IkigaiBucket where
  bullets : Json
  summary : Json

/-- The four overlap buckets. -/
structure IkigaiOverlaps where
  passion : IkigaiBucket
  mission : IkigaiBucket
  profession : IkigaiBucket
  vocation : IkigaiBucket

/-- The orchestrator's local `IkigaiProfile` (ids dropped). -/
structure IkigaiProfile where
  whyStatement : Json
  love : IkigaiBucket
  goodAt : IkigaiBucket
  worldNeeds : IkigaiBucket
  paidFor : IkigaiBucket
  overlaps : IkigaiOverlaps
  keyPatterns : List Json
  autoFilledPhase1 : Bool
  autoFilledPhase2 : Bool
  isComplete : Bool

/-- `metadata.tokenUsage` of an `EvaluationRun`. -/
structure TokenTriple where
  input : ℕ
  output : ℕ
  total : ℕ
deriving DecidableEq

/-- The metadata block of an `EvaluationRun` (plugin versions dropped; the
dynamically added `errorMessage` field is part of the record). -/
structure RunMetadata where
  modelProvider : String
  modelName : String
  temperature : ℚ
  tokenUsage : Option TokenTriple
  errorMessage : Option String

/-- types.ts `EvaluationRun` (id, timestamp and duration dropped). -/
structure EvaluationRun where
  modelId : String
  modelName : String
  scenarioId : String
  scenarioName : String
  status : String
  transcript : List TranscriptMessage
  whyProfile : Option WhyProfile
  ikigaiProfile : Option IkigaiProfile
  decisionHelperOutput : List TranscriptMessage
  judgeReport : Option JudgeReport
  metadata : RunMetadata
  phaseTokenUsage : Option TokenUsageSnapshot

/-- `v || dflt` for an optional string field where the empty string is
falsy (`m.phase || 'unknown'`). -/
def jsOrStr (v : Option String) (d : String) : String :=
  match v with
  | some s => if s = "" then d else s
  | none => d

/-! ## The environment

Everything outside the embedded code: the model gateway (network calls),
the platform's `JSON.parse`, the prompt text imported from the WhyFinder
plugin (opaque configuration per the spec), `JSON.stringify`, scenario
shuffling (`Math.random`), and the externally set abort flags. -/

/-- The abstract environment.  A gateway result `.error e` models the call
throwing with message `e` (transport failure, non-2xx response); `.ok v`
models the parsed response body. -/
structure Env where
  /-- `hasOpenAIApiKey()`: whether an OpenAI key is configured. -/
  hasOpenAIApiKey : Bool
  /-- The OpenAI chat endpoint: response body as JSON. -/
  rawOpenAI : List ChatMsg → ReqOptions → Except String Json
  /-- The BrainDrive `/api/v1/ai/providers/chat` endpoint. -/
  rawCandidate : List ChatMsg → ReqOptions → Except String Json
  /-- The platform `JSON.parse`, `none` modelling a thrown `SyntaxError`. -/
  jsonParse : String → Option Json
  /-- The platform `JSON.stringify` applied to the two profiles. -/
  stringifyProfiles : Option WhyProfile → Option IkigaiProfile → String
  /-- The orchestrator's `AbortController` signal, as observed at the
  cooperative checkpoints of the current run. -/
  aborted : Bool
  /-- The evaluation service's `abortRequested` flag. -/
  abortRequested : Bool
  /-- Scenario shuffling (`[...scenarios].sort(() => Math.random() - 0.5)`). -/
  shuffle : List Scenario → List Scenario
  /-- WhyFinder's `INITIAL_GREETING` (imported prompt text). -/
  initialGreeting : String
  /-- WhyFinder's `getCoachSystemPrompt(phase, sessionData, history,
  exchange)`; the evaluator always passes the same empty `sessionData`,
  which is therefore baked in. -/
  coachSystemPrompt : String → List ChatMsg → ℕ → String
  /-- WhyFinder's `getWhyExtractionPrompt`. -/
  whyExtractionPrompt : List ChatMsg → String
  /-- WhyFinder's `getPhaseSummarizationPrompt`. -/
  phaseSummarizationPrompt : String → List ChatMsg → String
  /-- WhyFinder's `getOverlapComputationPrompt` applied to the why statement
  and the four bullet lists. -/
  overlapComputationPrompt : Json → Json → Json → Json → Json → String
  /-- WhyFinder's `ikigai_base.txt`. -/
  ikigaiBasePrompt : String
  /-- WhyFinder's four per-bucket prompt files, keyed by phase name. -/
  ikigaiPhasePrompt : String → String
  /-- WhyFinder's per-phase intro constants (`IKIGAI_PHASE_INTROS`). -/
  ikigaiPhaseIntro : String → String
  /-- WhyFinder's `DECISION_HELPER_INTRO`. -/
  decisionHelperIntro : String
  /-- WhyFinder's `decision_helper.txt`. -/
  decisionHelperBasePrompt : String
  /-- WhyFinder's `MIN_ANSWERS_PER_PHASE` (a tunable constant per the spec). -/
  minAnswersPerPhase : ℕ

/-- Modelled from the spec: `WHY_FINDER_TOTAL_EXCHANGES` is imported from
the WhyFinder plugin, whose sources are outside this repository; the spec
fixes the discovery phase at 12 exchanges. -/
def WHY_FINDER_TOTAL_EXCHANGES : ℕ := 12

/-! ## Gateway call model (src/src/services/modelService.ts) -/

/-- A string field that is truthy (`data.x && typeof data.x === 'string'`
plus, when `withTrim`, `data.x.trim()`). -/
def strFieldHit (d : Json) (key : String) (withTrim : Bool) : Option String :=
  match d.getField key with
  | some (.str s) =>
    if s ≠ "" ∧ (¬ withTrim ∨ jsTrim s ≠ "") then some s else none
  | _ => none

/-- `extractTextFromResponse` (modelService.ts lines 775-844): probe the
known response shapes in priority order. -/
def extractTextFromResponse (data : Option Json) : String :=
  match data with
  | none => ""
  | some (.str s) => s
  | some d =>
    match strFieldHit d "text" true with
    | some s => s
    | none =>
    match strFieldHit d "content" true with
    | some s => s
    | none =>
    match strFieldHit d "response" true with
    | some s => s
    | none =>
    match d.getField "message" with
    | some m =>
      match strFieldHit m "content" false with
      | some s => s
      | none => extractChoices d
    | none => extractChoices d
where
  /-- The `choices[0]` probes. -/
  extractChoices (d : Json) : String :=
    match d.getField "choices" with
    | some (.arr (choice :: _)) =>
      match choice.getField "message" with
      | some m =>
        match strFieldHit m "content" false with
        | some s => s
        | none => extractDelta choice
      | none => extractDelta choice
    | _ => ""
  /-- The `choices[0].delta.content` and `choices[0].text` probes. -/
  extractDelta (choice : Json) : String :=
    match choice.getField "delta" with
    | some dl =>
      match strFieldHit dl "content" false with
      | some s => s
      | none => choiceText choice
    | none => choiceText choice
  /-- `choices[0].text`. -/
  choiceText (choice : Json) : String :=
    match choice.getField "text" with
    | some (.str s) => if s ≠ "" then s else ""
    | _ => ""

/-- A token count field: `usage.x || 0`, floored to a natural number. -/
def tokenCount (v : Option Json) : ℕ :=
  match v with
  | some (.num q) => q.floor.toNat
  | _ => 0

/-- `sendOpenAIRequest` (modelService.ts lines 523-611): key check, call,
token recording (before the empty check, so even an empty response records
usage), empty-response throw; the surrounding `catch` prefixes
`OpenAI call failed: `. -/
def sendOpenAIRequest (env : Env) (_model : ModelInfo) (messages : List ChatMsg)
    (options : ReqOptions) (st : MSState) : Except String String × MSState :=
  if env.hasOpenAIApiKey then
    match env.rawOpenAI messages options with
    | .error e => (.error ("OpenAI call failed: " ++ e), st)
    | .ok data =>
      let content : Option Json := do
        let cs ← data.getField "choices"
        match cs with
        | .arr (c :: _) => (← c.getField "message").getField "content"
        | _ => none
      let text : String :=
        match content with
        | some v => if v.truthy then v.asString else ""
        | none => ""
      let st' :=
        match data.getField "usage" with
        | some usage =>
          if usage.truthy then
            recordOpenAIUsage (tokenCount (usage.getField "prompt_tokens"))
              (tokenCount (usage.getField "completion_tokens")) st
          else st
        | none => st
      if jsTrim text = "" then
        (.error "OpenAI call failed: OpenAI returned empty response", st')
      else
        (.ok text, st')
  else
    (.error "OpenAI API key not configured. Please add your API key in the settings.", st)

/-- The empty-response message of `sendCandidateModelRequest`. -/
def candidateEmptyMsg (name : String) : String :=
  "Candidate model (" ++ name ++
    ") returned empty response. Check if the OpenRouter API key is configured in BrainDrive Settings."

/-- `sendCandidateModelRequest` (modelService.ts lines 617-769): error
field check, text extraction, token recording or estimation (4 chars per
token), empty-response throw; the surrounding `catch` prefixes
`Failed to call <name>: `. -/
def sendCandidateModelRequest (env : Env) (model : ModelInfo)
    (messages : List ChatMsg) (options : ReqOptions) (st : MSState) :
    Except String String × MSState :=
  match env.rawCandidate messages options with
  | .error e => (.error ("Failed to call " ++ model.name ++ ": " ++ e), st)
  | .ok response =>
    if optTruthy (response.getField "error") then
      let errObj := jsOr (response.getField "error") (.str "Unknown API error")
      let errorMsg := jsOr (errObj.getField "message") errObj
      (.error ("Failed to call " ++ model.name ++ ": Candidate model API error: " ++
        errorMsg.asString), st)
    else
      let text := extractTextFromResponse (some response)
      let usage : Option Json :=
        match response.getField "usage" with
        | some u => if u.truthy then some u else
            (response.getField "data").bind (·.getField "usage")
        | none => (response.getField "data").bind (·.getField "usage")
      let st' :=
        match usage with
        | some u =>
          if u.truthy then
            let inputTokens :=
              match u.getField "prompt_tokens" with
              | some (.num q) => if q ≠ 0 then q.floor.toNat else
                  tokenCount (u.getField "input_tokens")
              | _ => tokenCount (u.getField "input_tokens")
            let outputTokens :=
              match u.getField "completion_tokens" with
              | some (.num q) => if q ≠ 0 then q.floor.toNat else
                  tokenCount (u.getField "output_tokens")
              | _ => tokenCount (u.getField "output_tokens")
            recordCandidateUsage inputTokens outputTokens true st
          else
            estimate text st
        | none => estimate text st
      if jsTrim text = "" then
        let possibleIssue : Option Json :=
          match response.getField "error" with
          | some e => if e.truthy then some e else secondProbe response
          | none => secondProbe response
        match possibleIssue with
        | some issue =>
          (.error ("Failed to call " ++ model.name ++ ": Candidate model (" ++
            model.name ++ ") error: " ++ issue.asString), st')
        | none =>
          (.error ("Failed to call " ++ model.name ++ ": " ++
            candidateEmptyMsg model.name), st')
      else
        (.ok text, st')
where
  /-- Token estimation when the response carries no usage block. -/
  estimate (text : String) (st : MSState) : MSState :=
    let estimatedInput :=
      (messages.foldl (fun acc m => acc + m.content.length) 0 + 3) / 4
    let estimatedOutput := (text.length + 3) / 4
    recordCandidateUsage estimatedInput estimatedOutput false st
  /-- `response?.message || response?.detail` of the empty-response branch. -/
  secondProbe (response : Json) : Option Json :=
    match response.getField "message" with
    | some m => if m.truthy then some m else
        match response.getField "detail" with
        | some dt => if dt.truthy then some dt else none
        | none => none
    | none =>
      match response.getField "detail" with
      | some dt => if dt.truthy then some dt else none
      | none => none

/-! ## JSON block extraction and textual repairs

`extractValidJson` matches `/\{[\s\S]*\}/` (greedy: from the first opening
brace through the last closing brace), tries `JSON.parse`, and on failure
applies an ordered chain of textual repairs and retries once.  The three
copies in the sources differ only in their repair chains. -/

/-- The span of `/\x7b[\s\S]*\x7d/` in `s`: first `\x7b` through last
`\x7d`, `none` when the regex does not match. -/
def braceSpan (s : String) : Option String :=
  let cs := s.toList
  match cs.findIdx? (· = '{'), (cs.reverse.findIdx? (· = '}')) with
  | some first, some revLast =>
    let last := cs.length - 1 - revLast
    if first ≤ last then
      some (String.mk ((cs.drop first).take (last - first + 1)))
    else none
  | _, _ => none

/-- One global pass of `,\s*X → X` for a closing character `X`. -/
def fixTrailingCommas (close : Char) : List Char → List Char
  | [] => []
  | c :: rest =>
    if c = ',' then
      match h : rest.dropWhile isJsWs with
      | d :: tail =>
        if d = close then close :: fixTrailingCommas close tail
        else c :: fixTrailingCommas close rest
      | [] => c :: fixTrailingCommas close rest
    else c :: fixTrailingCommas close rest
  termination_by cs => cs.length
  decreasing_by
    · have hle := (List.dropWhile_sublist (l := rest) (p := isJsWs)).length_le
      rw [h] at hle
      simp only [List.length_cons] at hle ⊢
      omega
    all_goals simp

/-- One global pass of `:\s*X → : nullX` for a closing character `X`
(the empty-value repairs of the part_006 judge). -/
def fixEmptyValue (close : Char) : List Char → List Char
  | [] => []
  | c :: rest =>
    if c = ':' then
      match h : rest.dropWhile isJsWs with
      | d :: tail =>
        if d = close then
          ':' :: ' ' :: 'n' :: 'u' :: 'l' :: 'l' :: close :: fixEmptyValue close tail
        else c :: fixEmptyValue close rest
      | [] => c :: fixEmptyValue close rest
    else c :: fixEmptyValue close rest
  termination_by cs => cs.length
  decreasing_by
    · have hle := (List.dropWhile_sublist (l := rest) (p := isJsWs)).length_le
      rw [h] at hle
      simp only [List.length_cons] at hle ⊢
      omega
    all_goals simp

/-- One global pass of `\n\s*\n → \n` (greedy whitespace run, backtracking
to its last newline, as the regex engine matches it). -/
def collapseNewlines : List Char → List Char
  | [] => []
  | c :: rest =>
    if c = '\n' then
      let w := rest.takeWhile isJsWs
      match w.reverse.findIdx? (· = '\n') with
      | some revIdx =>
        let k := w.length - 1 - revIdx
        '\n' :: collapseNewlines (rest.drop (k + 1))
      | none => c :: collapseNewlines rest
    else c :: collapseNewlines rest
  termination_by cs => cs.length
  decreasing_by
    · have hlen := List.length_drop (l := rest) (i := (rest.takeWhile isJsWs).length - 1 -
        revIdx + 1)
      simp only [List.length_cons]
      omega
    all_goals simp

/-- `'` → `"` everywhere. -/
def singleToDouble (cs : List Char) : List Char :=
  cs.map (fun c => if c = '\'' then '"' else c)

/-- Remove the characters of `[\x00-\x1F\x7F]` (the judgeService.ts chain). -/
def stripControlDrop (cs : List Char) : List Char :=
  cs.filter (fun c => ¬ (c.toNat < 0x20 ∨ c.toNat = 0x7F))

/-- Replace the characters of `[\x00-\x1F\x7F]` by spaces (the part_006
chain). -/
def stripControlToSpace (cs : List Char) : List Char :=
  cs.map (fun c => if c.toNat < 0x20 ∨ c.toNat = 0x7F then ' ' else c)

/-- `extractValidJson` of src/src/services/judgeService.ts: trailing-comma,
quote and control-character-removal repairs. -/
def extractValidJsonV1 (env : Env) (text : String) : Option Json :=
  if text = "" then none
  else
    match braceSpan text with
    | none => none
    | some block =>
      match env.jsonParse block with
      | some v => some v
      | none =>
        let fixed := String.mk (stripControlDrop (singleToDouble
          (fixTrailingCommas ']' (fixTrailingCommas '}' block.toList))))
        env.jsonParse fixed

/-- `extractValidJson` of the part_006 judge: the V1 repairs with control
characters turned into spaces, plus newline collapapsing and empty-value
filling. -/
def extractValidJsonV2 (env : Env) (text : String) : Option Json :=
  if text = "" then none
  else
    match braceSpan text with
    | none => none
    | some block =>
      match env.jsonParse block with
      | some v => some v
      | none =>
        let fixed := String.mk (fixEmptyValue '}' (fixEmptyValue ','
          (collapseNewlines (stripControlToSpace (singleToDouble
            (fixTrailingCommas ']' (fixTrailingCommas '}' block.toList)))))))
        env.jsonParse fixed

/-- `extractValidJson` of the orchestrator (part_007): trailing-comma and
quote repairs only. -/
def extractValidJsonOrch (env : Env) (text : String) : Option Json :=
  if text = "" then none
  else
    match braceSpan text with
    | none => none
    | some block =>
      match env.jsonParse block with
      | some v => some v
      | none =>
        let fixed := String.mk (singleToDouble
          (fixTrailingCommas ']' (fixTrailingCommas '}' block.toList)))
        env.jsonParse fixed

/-! ## Judge scoring (shared by both judge service versions) -/

/-- `calculateOverallScore` (identical in judgeService.ts lines 392-404 and
part_006 lines 457-469): fold `Σ score·weight` and `Σ weight` over
`Object.entries(METRIC_WEIGHTS)`; the source's `metric?.score || 0` maps
`0` to `0` and is the identity on rational scores. -/
def calculateOverallScore (metrics : EvaluationMetrics) : ℚ :=
  let acc := METRIC_WEIGHTS.foldl (fun acc kw =>
    let score : ℚ :=
      match metrics.get kw.1 with
      | some ms => ms.score
      | none => 0
    (acc.1 + score * kw.2, acc.2 + kw.2)) ((0 : ℚ), (0 : ℚ))
  if acc.2 > 0 then acc.1 / acc.2 else 0

/-- `getEmptyMetrics` of both judge services. -/
def getEmptyMetrics : EvaluationMetrics :=
  let e : MetricScore := ⟨0, .str "", []⟩
  ⟨e, e, e, e, e, e, e⟩

/-- The report as initialised at the top of `judgeRun`, before the try
block (both versions). -/
def emptyReport (run : EvaluationRun) : JudgeReport :=
  { modelName := run.modelName, scenarioName := run.scenarioName,
    metrics := getEmptyMetrics, overallScore := 0,
    generalComments := [], pros := [], cons := [], pinpointedIssues := [] }

namespace JudgeV1

/-! The judge service of src/src/services/judgeService.ts. -/

/-- `parseMetricScore` (judgeService.ts lines 348-371).  Note that the
plain-number branch returns the score without the clamp applied on the
object branch. -/
def parseMetricScore (data : Option Json) : MetricScore :=
  match data with
  | none => ⟨0, .str "", []⟩
  | some v =>
    if v.truthy then
      match v with
      | .num n => ⟨n, .str "", []⟩
      | _ =>
        let score : ℚ :=
          match v.getField "score" with
          | some (.num n) => n
          | some (.str s) =>
            match jsParseFloat s with
            | some q => q
            | none => 5
          | _ => 0
        ⟨max 0 (min 10 score), jsOr (v.getField "comment") (.str ""),
          jsArrayOrEmpty (v.getField "evidence")⟩
    else ⟨0, .str "", []⟩

/-- `parsePinpointedIssues` (judgeService.ts lines 376-387). -/
def parsePinpointedIssues (data : Option Json) : List PinpointedIssue :=
  match data with
  | some (.arr items) =>
    items.map (fun item =>
      { exchange := none, exactPhrase := none,
        location := jsOr (item.getField "location") (.str "Unknown location"),
        issue := jsOr (item.getField "issue") (.str "Unknown issue"),
        severity :=
          match item.getField "severity" with
          | some (.str s) =>
            if s ∈ ["low", "medium", "high", "critical"] then s else "medium"
          | _ => "medium",
        suggestion :=
          match item.getField "suggestion" with
          | some v => if v.truthy then some v else none
          | none => none })
  | _ => []

/-- `getJudgePrompt` of judgeService.ts.  The fixed rubric text and the
worked JSON example (opaque prompt constants of several kilobytes) are
abbreviated to a stand-in; only the three interpolation points are read by
anything in this development. -/
def getJudgePrompt (transcript profiles scenarioInfo : String) : String :=
  "You are an expert AI evaluator. Score the AI coach on 7 metrics using DECIMAL scores (0.0-10.0).\n\nSCENARIO: "
    ++ scenarioInfo ++ "\n\nTRANSCRIPT:\n" ++ transcript ++ "\n\nPROFILES:\n"
    ++ profiles ++ "\n\n[seven-metric rubric and worked JSON example]"

/-- The transcript text built by `judgeRun` (judgeService.ts line 281). -/
def transcriptText (run : EvaluationRun) : String :=
  String.intercalate "\n\n" (run.transcript.map (fun m =>
    "[" ++ jsOrStr m.phase "unknown" ++ "] " ++ jsUpper m.role ++ ": " ++ m.content))

/-- The single user message sent to the judge model. -/
def judgeCallMsgs (env : Env) (run : EvaluationRun) : List ChatMsg :=
  [⟨"user", getJudgePrompt (transcriptText run)
    (env.stringifyProfiles run.whyProfile run.ikigaiProfile)
    ("Model: " ++ run.modelName ++ "\nScenario: " ++ run.scenarioName)⟩]

/-- The report fields filled from a successfully parsed judge response
(judgeService.ts lines 305-329). -/
def reportFromParsed (run : EvaluationRun) (parsed : Json) : JudgeReport :=
  let metrics : EvaluationMetrics :=
    { clarity := parseMetricScore (parsed.getField "clarity"),
      structuralCorrectness := parseMetricScore (parsed.getField "structuralCorrectness"),
      consistency := parseMetricScore (parsed.getField "consistency"),
      coverage := parseMetricScore (parsed.getField "coverage"),
      hallucination := parseMetricScore (parsed.getField "hallucination"),
      decisionExpertise := parseMetricScore (parsed.getField "decisionExpertise"),
      safety := parseMetricScore (parsed.getField "safety") }
  { emptyReport run with
    metrics := metrics,
    generalComments := jsArrayOrEmpty (parsed.getField "generalComments"),
    pros := jsArrayOrEmpty (parsed.getField "pros"),
    cons := jsArrayOrEmpty (parsed.getField "cons"),
    pinpointedIssues := parsePinpointedIssues (parsed.getField "pinpointedIssues"),
    overallScore := calculateOverallScore metrics }

/-- `judgeRun` (judgeService.ts lines 260-343): build the prompt, call the
judge at temperature 0, parse, fill the report; a gateway failure or a
parse failure yields the empty report annotated with a comment. -/
def judgeRun (env : Env) (run : EvaluationRun) (judgeModel : ModelInfo)
    (st : MSState) : JudgeReport × MSState :=
  match sendOpenAIRequest env judgeModel (judgeCallMsgs env run) ⟨0, 4096⟩ st with
  | (.error e, st') =>
    ({ emptyReport run with generalComments := [.str ("Judging error: " ++ e)] }, st')
  | (.ok response, st') =>
    match extractValidJsonV1 env response with
    | some parsed => (reportFromParsed run parsed, st')
    | none =>
      ({ emptyReport run with
        generalComments := [.str "Judge response could not be parsed"] }, st')

end JudgeV1

namespace JudgeV2

/-! The judge service of src/unnamed/part_006 (the "ultra-robust"
evidence-ledger version). -/

/-- `parseMetricScore` (part_006 lines 407-434): like V1 but the
plain-number branch clamps, and string scores are cleaned to
`[0-9.-]` characters before parsing. -/
def parseMetricScore (data : Option Json) : MetricScore :=
  match data with
  | none => ⟨0, .str "", []⟩
  | some v =>
    if v.truthy then
      match v with
      | .num n => ⟨max 0 (min 10 n), .str "", []⟩
      | _ =>
        let score : ℚ :=
          match v.getField "score" with
          | some (.num n) => n
          | some (.str s) =>
            let cleaned := String.mk (s.toList.filter
              (fun c => c.isDigit ∨ c = '.' ∨ c = '-'))
            match jsParseFloat cleaned with
            | some q => q
            | none => 5
          | _ => 0
        ⟨max 0 (min 10 score), jsOr (v.getField "comment") (.str ""),
          jsArrayOrEmpty (v.getField "evidence")⟩
    else ⟨0, .str "", []⟩

/-- `parsePinpointedIssues` (part_006 lines 439-452). -/
def parsePinpointedIssues (data : Option Json) : List PinpointedIssue :=
  match data with
  | some (.arr items) =>
    items.map (fun item =>
      { exchange := item.getField "exchange",
        exactPhrase := item.getField "exactPhrase",
        location := jsOr (item.getField "location")
          (.str ("Exchange " ++ (jsOr (item.getField "exchange") (.str "?")).asString)),
        issue := jsOr (item.getField "issue") (.str "Unknown issue"),
        severity :=
          match item.getField "severity" with
          | some (.str s) =>
            if s ∈ ["low", "medium", "high", "critical"] then s else "medium"
          | _ => "medium",
        suggestion :=
          match item.getField "expectedBehavior" with
          | some v =>
            if v.truthy then some v else
              match item.getField "suggestion" with
              | some w => if w.truthy then some w else none
              | none => none
          | none =>
            match item.getField "suggestion" with
            | some w => if w.truthy then some w else none
            | none => none })
  | _ => []

/-- The `/\[.*?\]/g` match count of the V2 prompt: bracket pairs with no
newline between them, scanned left to right. -/
def countBracketMatches : List Char → ℕ
  | [] => 0
  | c :: rest =>
    if c = '[' then
      match (rest.takeWhile (· ≠ '\n')).findIdx? (· = ']') with
      | some k => 1 + countBracketMatches (rest.drop (k + 1))
      | none => countBracketMatches rest
    else countBracketMatches rest
  termination_by cs => cs.length
  decreasing_by
    · simp only [List.length_cons, List.length_drop]
      omega
    all_goals simp

/-- `getJudgePrompt` of part_006, with the transcript statistics it
computes; the fixed evidence-ledger rubric text (an opaque prompt constant
of several kilobytes) is abbreviated to a stand-in. -/
def getJudgePrompt (transcript profiles scenarioInfo : String) : String :=
  let exchangeCount := countBracketMatches transcript.toList
  let wordCount := (jsSplitWs transcript).length
  "You are an expert evaluator for BrainDrive Why Finder and Ikigai profiles.\n\nTRANSCRIPT STATS:\n- Exchanges: "
    ++ toString exchangeCount ++ "\n- Words: " ++ toString wordCount
    ++ "\nSCENARIO:\n" ++ scenarioInfo ++ "\n\nTRANSCRIPT\n" ++ transcript
    ++ "\n\nEXTRACTED PROFILES (JSON)\n" ++ profiles
    ++ "\n\n[evidence-ledger rubric, anti-anchoring safeguards and JSON output format]"

/-- The transcript text built by the V2 `judgeRun` (part_006 lines
313-322), labelling each message with a computed exchange number. -/
def transcriptText (run : EvaluationRun) : String :=
  let pieces := (run.transcript.foldl (fun (acc : List String × ℕ) m =>
    let exchangeNum :=
      if m.role = "user" ∨ m.role = "assistant" then acc.2 + 1 else acc.2
    let roleLabel := if m.role = "assistant" then "Coach" else "User"
    (acc.1 ++ ["[Exchange " ++ toString ((exchangeNum + 1) / 2) ++ ", " ++ roleLabel
      ++ "] (Phase: " ++ jsOrStr m.phase "unknown" ++ ")\n" ++ m.content],
      exchangeNum)) ([], 0)).1
  String.intercalate "\n\n---\n\n" pieces

/-- The single user message sent to the judge model. -/
def judgeCallMsgs (env : Env) (run : EvaluationRun) : List ChatMsg :=
  [⟨"user", getJudgePrompt (transcriptText run)
    (env.stringifyProfiles run.whyProfile run.ikigaiProfile)
    ("Model: " ++ run.modelName ++ "\nScenario: " ++ run.scenarioName
      ++ "\nProvider: " ++ run.metadata.modelProvider)⟩]

/-- The anti-anchoring warning pushed when fewer than 3 distinct scores
appear among the seven metrics. -/
def anchoringWarning : String :=
  "WARNING: Evaluation scores may have anchoring bias - review carefully."

/-- The report fields filled from a successfully parsed judge response
(part_006 lines 346-386), in statement order: the metrics are extracted,
the anti-anchoring check appends its warning to `generalComments`, and the
subsequent assignment of `parsed.generalComments` then overwrites the
list, discarding the warning just pushed. -/
def reportFromParsed (run : EvaluationRun) (parsed : Json) : JudgeReport :=
  let metrics : EvaluationMetrics :=
    { clarity := parseMetricScore (parsed.getField "clarity"),
      structuralCorrectness := parseMetricScore (parsed.getField "structuralCorrectness"),
      consistency := parseMetricScore (parsed.getField "consistency"),
      coverage := parseMetricScore (parsed.getField "coverage"),
      hallucination := parseMetricScore (parsed.getField "hallucination"),
      decisionExpertise := parseMetricScore (parsed.getField "decisionExpertise"),
      safety := parseMetricScore (parsed.getField "safety") }
  let scores : List ℚ :=
    [metrics.clarity.score, metrics.structuralCorrectness.score,
     metrics.consistency.score, metrics.coverage.score,
     metrics.hallucination.score, metrics.decisionExpertise.score,
     metrics.safety.score]
  let uniqueCount := scores.dedup.length
  let report1 := { emptyReport run with metrics := metrics }
  let report2 :=
    if uniqueCount < 3 then
      { report1 with generalComments := report1.generalComments ++ [.str anchoringWarning] }
    else report1
  { report2 with
    generalComments := jsArrayOrEmpty (parsed.getField "generalComments"),
    pros := jsArrayOrEmpty (parsed.getField "pros"),
    cons := jsArrayOrEmpty (parsed.getField "cons"),
    pinpointedIssues := parsePinpointedIssues (parsed.getField "pinpointedIssues"),
    overallScore := calculateOverallScore metrics }

/-- `judgeRun` of part_006 (lines 292-402): like V1 but at temperature 0.1
and with the V2 prompt, parsing and anti-anchoring check. -/
def judgeRun (env : Env) (run : EvaluationRun) (judgeModel : ModelInfo)
    (st : MSState) : JudgeReport × MSState :=
  match sendOpenAIRequest env judgeModel (judgeCallMsgs env run) ⟨0.1, 4096⟩ st with
  | (.error e, st') =>
    ({ emptyReport run with generalComments := [.str ("Judging error: " ++ e)] }, st')
  | (.ok response, st') =>
    match extractValidJsonV2 env response with
    | some parsed => (reportFromParsed run parsed, st')
    | none =>
      ({ emptyReport run with
        generalComments := [.str "Judge response could not be parsed"] }, st')

end JudgeV2

namespace Orchestrator

/-! The orchestrator service of src/unnamed/part_007: the three-phase
dialogue state machine. -/

/-- `getSyntheticUserPrompt` (part_007 lines 205-265).  The static rule
text is abbreviated to its opening line; the persona interpolation
structure is kept in full. -/
def getSyntheticUserPrompt (scenario : Scenario) (customPrompt : String) : String :=
  (if customPrompt ≠ "" then customPrompt ++ "\n\n" else "") ++
  "You are a HUMAN USER seeking coaching. You are NOT the coach.\n\n[critical rules and absolute prohibitions]\n\nYOUR PERSONA\n\n"
    ++ scenario.personaSummary
    ++ "\n\nYOUR LIFE CONSTRAINTS (stay within these facts):\n"
    ++ String.intercalate "\n" (scenario.constraints.map (fun c => "• " ++ c))
    ++ "\n\nYOUR GOALS (why you're seeking coaching):\n"
    ++ String.intercalate "\n" (scenario.goals.map (fun g => "• " ++ g))
    ++ "\n\nYOUR INTERNAL CONFLICTS:\n"
    ++ String.intercalate "\n" (scenario.conflictPoints.map (fun cp => "• " ++ cp))
    ++ "\n\nRED LINES (never invent or contradict):\n"
    ++ String.intercalate "\n" (scenario.redLines.map (fun rl => "• " ++ rl))
    ++ "\n\nSTARTING CONTEXT:\n\"" ++ scenario.starterContext ++ "\""
    ++ "\n\n[response style examples]\n\nNow respond to the coach's question as this persona. Be human. Be short."

/-- The coaching-register phrases of the second safeguard (part_007
line 942). -/
def COACHING_PHRASES : List String :=
  ["YOUR WHY IS", "Does this resonate", "How does this feel", "It sounds like",
   "I hear you", "SUMMARY OF", "PATTERNS I SEE"]

/-- The canned deflection substituted for a partial-sentence copy
(part_007 line 938). -/
def CANNED_PARTIAL : String :=
  "That's an interesting question. Let me think... When I'm in that situation, I usually feel a mix of emotions - sometimes overwhelmed, sometimes determined."

/-- The canned deflection substituted for coaching language (part_007
line 946). -/
def CANNED_COACHING : String :=
  "I appreciate you asking. To answer your question - it's something I struggle with. I often find myself caught between wanting to help and feeling unsure if I'm doing enough."

/-- The canned deflection substituted for word mirroring (part_007
line 958). -/
def CANNED_MIRROR : String :=
  "That's something I've been thinking about a lot lately. I guess at my core, I want to feel like I'm making a real difference in people's lives."

/-- Safeguard (a): the trimmed response begins with a dangling punctuation
fragment. -/
def startsWithFragment (responseTrimmed : String) : Bool :=
  jsStartsWith responseTrimmed "." || jsStartsWith responseTrimmed "?" ||
    jsStartsWith responseTrimmed "!"

/-- Safeguard (b): the upper-cased response contains one of the fixed
coaching-register phrases. -/
def containsCoachingPhrase (responseTrimmed : String) : Bool :=
  COACHING_PHRASES.any (fun phrase => jsIncludes (jsUpper responseTrimmed) (jsUpper phrase))

/-- Safeguard (c)'s overlap count: coach tokens among the first 30
(case-folded, split on whitespace) that also occur among the user's first
30 tokens and are longer than 5 characters. -/
def mirrorOverlap (coachContent responseTrimmed : String) : ℕ :=
  let coachWords := (jsSplitWs (jsLower coachContent)).take 30
  let userWords := (jsSplitWs (jsLower responseTrimmed)).take 30
  (coachWords.filter (fun w => userWords.contains w ∧ w.length > 5)).length

/-- The messages sent to the synthetic-user model. -/
def synthCallMsgs (scenario : Scenario) (config : EvaluationConfig)
    (conversationHistory : List ChatMsg) : List ChatMsg :=
  ⟨"system", getSyntheticUserPrompt scenario config.syntheticUserPrompt⟩ :: conversationHistory

/-- `generateSyntheticUserResponse` (part_007 lines 902-971): call OpenAI
at temperature 0, reject an empty response, then run the three
anti-mirroring safeguards in order when the last history message is an
assistant turn; the surrounding catch prefixes
`Synthetic user (OpenAI) failed: `. -/
def generateSyntheticUserResponse (env : Env) (syntheticModel : ModelInfo)
    (scenario : Scenario) (config : EvaluationConfig)
    (conversationHistory : List ChatMsg) (st : MSState) :
    Except String String × MSState :=
  match sendOpenAIRequest env syntheticModel
      (synthCallMsgs scenario config conversationHistory) ⟨0, 4096⟩ st with
  | (.error e, st') => (.error ("Synthetic user (OpenAI) failed: " ++ e), st')
  | (.ok response, st') =>
    if jsTrim response = "" then
      (.error "Synthetic user (OpenAI) failed: Synthetic user model returned empty response", st')
    else
      match conversationHistory.getLast? with
      | some lastCoachMsg =>
        if lastCoachMsg.role = "assistant" then
          let responseTrimmed := jsTrim response
          if startsWithFragment responseTrimmed then (.ok CANNED_PARTIAL, st')
          else if containsCoachingPhrase responseTrimmed then (.ok CANNED_COACHING, st')
          else if mirrorOverlap lastCoachMsg.content responseTrimmed > 12 then
            (.ok CANNED_MIRROR, st')
          else (.ok response, st')
        else (.ok response, st')
      | none => (.ok response, st')

/-- The forced why-delivery prompt of exchange 12 (part_007 lines
519-575); the static instruction text is abbreviated, the conversation
interpolation is kept. -/
def forceWhyPrompt (conversationHistory : List ChatMsg) : String :=
  let conversationText := String.intercalate "\n\n"
    (conversationHistory.map (fun msg => jsUpper msg.role ++ ": " ++ msg.content))
  "You are a Why Coach completing a Why Finder session. You have had 12 exchanges with the user exploring what energizes them, what drains them, and meaningful stories from their life.\n\nCONVERSATION SO FAR:\n"
    ++ conversationText
    ++ "\n\n[required output structure: summary, patterns, YOUR WHY IS, explanation, loves, strengths]\n\nCRITICAL RULES:\n- DO NOT ask any questions\n- The Why statement MUST start with \"To\" and include \"so that\"\n- End with the reflection statement, not a question"

/-- The discovery sub-phase determined by the exchange index (part_007
lines 473-476). -/
def whyPhaseOf (exchange : ℕ) : String :=
  if exchange ≤ 3 then "intro"
  else if exchange ≤ 6 then "energy_map"
  else if exchange ≤ 9 then "stories"
  else "your_why"

/-- The outcome of a dialogue loop: the locally accumulated transcript and
conversation history, the token state, and the pending exception if one
was raised (the TypeScript locals at the moment the loop ended). -/
structure PhaseLoopOut where
  transcript : List TranscriptMessage
  history : List ChatMsg
  st : MSState
  err : Option String

/-- The messages of a regular coach call at a discovery exchange. -/
def coachCallMsgs (env : Env) (currentPhase : String)
    (conversationHistory : List ChatMsg) (exchange : ℕ) : List ChatMsg :=
  ⟨"system", env.coachSystemPrompt currentPhase conversationHistory exchange⟩ ::
    conversationHistory

/-- The discovery loop of `simulateWhyFinder` (part_007 lines 469-621),
processing the remaining `fuel` exchanges starting at index `exchange`
(the `for` loop is this function at fuel 12, exchange 1): synthetic-user
turn, coach turn (the forced why-delivery prompt at exchange 12), abort
check. -/
def whyFinderGo (env : Env) (cand synth : ModelInfo) (scenario : Scenario)
    (config : EvaluationConfig) :
    ℕ → ℕ → List TranscriptMessage → List ChatMsg → MSState → PhaseLoopOut
  | 0, _, transcript, history, st => ⟨transcript, history, st, none⟩
  | fuel + 1, exchange, transcript, history, st =>
    let currentPhase := whyPhaseOf exchange
    match generateSyntheticUserResponse env synth scenario config history st with
    | (.error e, st1) => ⟨transcript, history, st1, some e⟩
    | (.ok userResponse, st1) =>
      let transcript1 := transcript ++
        [⟨"user", userResponse, some currentPhase, some exchange⟩]
      let history1 := history ++ [⟨"user", userResponse⟩]
      let coachCall :=
        if WHY_FINDER_TOTAL_EXCHANGES ≤ exchange then
          sendCandidateModelRequest env cand [⟨"user", forceWhyPrompt history1⟩]
            ⟨config.candidateTemperature, 4096⟩ st1
        else
          sendCandidateModelRequest env cand
            (coachCallMsgs env currentPhase history1 exchange)
            ⟨config.candidateTemperature, 4096⟩ st1
      match coachCall with
      | (.error e, st2) => ⟨transcript1, history1, st2, some e⟩
      | (.ok coachResponse, st2) =>
        let transcript2 := transcript1 ++
          [⟨"assistant", coachResponse, some currentPhase, some exchange⟩]
        let history2 := history1 ++ [⟨"assistant", coachResponse⟩]
        if env.aborted then ⟨transcript2, history2, st2, some "Evaluation aborted"⟩
        else whyFinderGo env cand synth scenario config fuel (exchange + 1)
          transcript2 history2 st2

/-- The initial coach greeting pushed before the discovery loop (part_007
lines 459-466). -/
def initialGreetingMsg (env : Env) : TranscriptMessage :=
  ⟨"assistant", env.initialGreeting, some "intro", some 0⟩

/-- `extractWhyProfile` (part_007 lines 976-1018): one extraction call to
the candidate; any failure (gateway or parse) is caught and yields `none`. -/
def extractWhyProfile (env : Env) (transcript : List TranscriptMessage)
    (model : ModelInfo) (st : MSState) : Option WhyProfile × MSState :=
  let conversation : List ChatMsg := transcript.map (fun m => ⟨m.role, m.content⟩)
  match sendCandidateModelRequest env model
      [⟨"user", env.whyExtractionPrompt conversation⟩] ⟨0, 4096⟩ st with
  | (.error _, st') => (none, st')
  | (.ok response, st') =>
    match extractValidJsonOrch env response with
    | some parsed =>
      (some { summary := jsOr (parsed.getField "summary") (.str ""),
              patterns := jsOr (parsed.getField "patterns") (.str ""),
              whyStatement := jsOr (parsed.getField "whyStatement") (.str ""),
              whyExplanation := "",
              whatYouLove := jsOr (parsed.getField "whatYouLove") (.arr []),
              whatYouAreGoodAt := jsOr (parsed.getField "whatYouAreGoodAt") (.arr []),
              modelUsed := model.name,
              exchangeCount := transcript.length }, st')
    | none => (none, st')

/-- The result of the discovery phase. -/
structure WhyFinderResult where
  transcript : List TranscriptMessage
  whyProfile : Option WhyProfile

/-- `simulateWhyFinder` (part_007 lines 434-628): greeting, 12-exchange
loop, extraction pass.  An exception inside the loop propagates and the
locally accumulated transcript is lost, exactly as the TypeScript local
array is. -/
def simulateWhyFinder (env : Env) (cand synth : ModelInfo) (scenario : Scenario)
    (config : EvaluationConfig) (st : MSState) :
    Except String WhyFinderResult × MSState :=
  let out := whyFinderGo env cand synth scenario config WHY_FINDER_TOTAL_EXCHANGES 1
    [initialGreetingMsg env] [⟨"assistant", env.initialGreeting⟩] st
  match out.err with
  | some e => (.error e, out.st)
  | none =>
    let (whyProfile, st') := extractWhyProfile env out.transcript cand out.st
    (.ok ⟨out.transcript, whyProfile⟩, st')

/-! ### Ikigai bucket building -/

/-- `.length` of a JSON value (`undefined` on shapes without one). -/
def Json.lengthProp : Json → Option ℕ
  | .arr xs => some xs.length
  | .str s => some s.length
  | _ => none

/-- `v?.length || 0`. -/
def lengthOrZero (j : Json) : ℕ := (Json.lengthProp j).getD 0

/-- `.join(', ')` where the TypeScript types promise a string array. -/
def jsJoinComma : Json → String
  | .arr xs => String.intercalate ", " (xs.map Json.asString)
  | other => other.asString

/-- WhyFinder's `PhaseAnswerCounts`. -/
structure PhaseAnswerCounts where
  love : ℕ
  goodAt : ℕ
  worldNeeds : ℕ
  paidFor : ℕ
deriving DecidableEq

/-- Dynamic access `answerCounts[countKey]`. -/
def PhaseAnswerCounts.get (c : PhaseAnswerCounts) : String → ℕ
  | "love" => c.love
  | "goodAt" => c.goodAt
  | "worldNeeds" => c.worldNeeds
  | "paidFor" => c.paidFor
  | _ => 0

/-- `answerCounts[countKey]++`. -/
def PhaseAnswerCounts.inc (c : PhaseAnswerCounts) : String → PhaseAnswerCounts
  | "love" => { c with love := c.love + 1 }
  | "goodAt" => { c with goodAt := c.goodAt + 1 }
  | "worldNeeds" => { c with worldNeeds := c.worldNeeds + 1 }
  | "paidFor" => { c with paidFor := c.paidFor + 1 }
  | _ => c

/-- One bucket summary (`{ bullets, summary }` of `summarizePhase`). -/
structure PhaseData where
  bullets : Json
  summary : Json

/-- The orchestrator's `LocalPhaseStorage`. -/
structure LocalPhaseStorage where
  phase1 : Option PhaseData
  phase2 : Option PhaseData
  phase3 : Option PhaseData
  phase4 : Option PhaseData

/-- `getIkigaiBuilderPrompt` (part_007 lines 146-182). -/
def getIkigaiBuilderPrompt (env : Env) (phase : String)
    (answerCounts : PhaseAnswerCounts) (whyProfile : Option WhyProfile) : String :=
  let prompt := env.ikigaiBasePrompt ++
    (if phase = "phase1_love" ∨ phase = "phase2_good_at" ∨
        phase = "phase3_world" ∨ phase = "phase4_paid" then
      "\n\n" ++ env.ikigaiPhasePrompt phase
    else "")
  let prompt := prompt ++ "\n\nCurrent counts: Love=" ++ toString answerCounts.love
    ++ ", GoodAt=" ++ toString answerCounts.goodAt
    ++ ", WorldNeeds=" ++ toString answerCounts.worldNeeds
    ++ ", PaidFor=" ++ toString answerCounts.paidFor
  match whyProfile with
  | none => prompt
  | some wp =>
    let prompt := prompt ++ "\n\nUser's Why Statement: \"" ++ wp.whyStatement.asString ++ "\""
    let prompt := prompt ++
      (if lengthOrZero wp.whatYouLove > 0 then
        "\nWhat they love: " ++ jsJoinComma wp.whatYouLove
      else "")
    prompt ++
      (if lengthOrZero wp.whatYouAreGoodAt > 0 then
        "\nWhat they're good at: " ++ jsJoinComma wp.whatYouAreGoodAt
      else "")

/-- The outcome of one bucket sub-dialogue. -/
structure IkigaiLoopOut where
  transcript : List TranscriptMessage
  phaseConversation : List ChatMsg
  counts : PhaseAnswerCounts
  st : MSState
  err : Option String

/-- The bounded bucket sub-dialogue (part_007 lines 692-739): while the
bucket's answer count is below the minimum and fuel (10 minus the exchange
pairs already run; the loop is entered at fuel 10) remains, one
synthetic-user turn (incrementing the count), one coach turn, abort
check. -/
def ikigaiPhaseGo (env : Env) (cand synth : ModelInfo) (scenario : Scenario)
    (config : EvaluationConfig) (phase countKey : String)
    (whyProfile : Option WhyProfile) :
    ℕ → PhaseAnswerCounts → List TranscriptMessage → List ChatMsg → MSState →
    IkigaiLoopOut
  | 0, counts, transcript, phaseConversation, st =>
    ⟨transcript, phaseConversation, counts, st, none⟩
  | fuel + 1, counts, transcript, phaseConversation, st =>
    if counts.get countKey < env.minAnswersPerPhase then
      match generateSyntheticUserResponse env synth scenario config phaseConversation st with
      | (.error e, st1) => ⟨transcript, phaseConversation, counts, st1, some e⟩
      | (.ok userResponse, st1) =>
        let transcript1 := transcript ++ [⟨"user", userResponse, some phase, none⟩]
        let phaseConv1 := phaseConversation ++ [⟨"user", userResponse⟩]
        let counts1 := counts.inc countKey
        let systemPrompt := getIkigaiBuilderPrompt env phase counts1 whyProfile
        match sendCandidateModelRequest env cand (⟨"system", systemPrompt⟩ :: phaseConv1)
            ⟨config.candidateTemperature, 4096⟩ st1 with
        | (.error e, st2) => ⟨transcript1, phaseConv1, counts1, st2, some e⟩
        | (.ok coachResponse, st2) =>
          let transcript2 := transcript1 ++ [⟨"assistant", coachResponse, some phase, none⟩]
          let phaseConv2 := phaseConv1 ++ [⟨"assistant", coachResponse⟩]
          if env.aborted then ⟨transcript2, phaseConv2, counts1, st2, some "Evaluation aborted"⟩
          else ikigaiPhaseGo env cand synth scenario config phase countKey whyProfile
            fuel counts1 transcript2 phaseConv2 st2
    else ⟨transcript, phaseConversation, counts, st, none⟩

/-- `summarizePhase` (part_007 lines 1024-1080): one summarization call,
normalising the four bucket-specific JSON shapes; any failure is caught
and yields empty bullets. -/
def summarizePhase (env : Env) (cand : ModelInfo) (phaseName : String)
    (phaseConversation : List ChatMsg) (st : MSState) :
    Option PhaseData × MSState :=
  match sendCandidateModelRequest env cand
      [⟨"user", env.phaseSummarizationPrompt phaseName phaseConversation⟩]
      ⟨0, 4096⟩ st with
  | (.error _, st') => (some ⟨.arr [], .str ""⟩, st')
  | (.ok response, st') =>
    match extractValidJsonOrch env response with
    | none => (some ⟨.arr [], .str ""⟩, st')
    | some parsed =>
      let pd : PhaseData :=
        if phaseName = "phase1_love" ∧ optTruthy (parsed.getField "love") then
          let l := jsOr (parsed.getField "love") .null
          ⟨jsOr (l.getField "bullets") (.arr []), jsOr (l.getField "summary") (.str "")⟩
        else if phaseName = "phase2_good_at" ∧ optTruthy (parsed.getField "good_at") then
          let g := jsOr (parsed.getField "good_at") .null
          ⟨jsOr (g.getField "bullets") (.arr []), jsOr (g.getField "summary") (.str "")⟩
        else if phaseName = "phase3_world" ∧ optTruthy (parsed.getField "world_needs") then
          let w := jsOr (parsed.getField "world_needs") .null
          ⟨jsOr (w.getField "bullets") (.arr []), jsOr (w.getField "summary") (.str "")⟩
        else if phaseName = "phase4_paid" ∧ optTruthy (parsed.getField "paid_for") then
          let pf := jsOr (parsed.getField "paid_for") .null
          let current := jsArrayOrEmpty (some (jsOr (pf.getField "current") (.arr [])))
          let potential := jsArrayOrEmpty (some (jsOr (pf.getField "potential") (.arr [])))
          ⟨.arr (current ++ potential), jsOr (pf.getField "summary") (.str "")⟩
        else
          ⟨jsOr (parsed.getField "bullets") (jsOr (parsed.getField "items") (.arr [])),
           jsOr (parsed.getField "summary") (jsOr (parsed.getField "key_insight") (.str ""))⟩
      (some pd, st')

/-- The auto-fill step at the start of `simulateIkigaiBuilder` (part_007
lines 649-668). -/
def ikigaiAutoFill (env : Env) (whyProfile : Option WhyProfile) :
    PhaseAnswerCounts × LocalPhaseStorage :=
  match whyProfile with
  | none => (⟨0, 0, 0, 0⟩, ⟨none, none, none, none⟩)
  | some wp =>
    let c0 : PhaseAnswerCounts := ⟨0, 0, 0, 0⟩
    let s0 : LocalPhaseStorage := ⟨none, none, none, none⟩
    let (c1, s1) :=
      if lengthOrZero wp.whatYouLove ≥ env.minAnswersPerPhase then
        ({ c0 with love := lengthOrZero wp.whatYouLove },
         { s0 with phase1 := some ⟨wp.whatYouLove, .str "From Why Profile"⟩ })
      else (c0, s0)
    if lengthOrZero wp.whatYouAreGoodAt ≥ env.minAnswersPerPhase then
      ({ c1 with goodAt := lengthOrZero wp.whatYouAreGoodAt },
       { s1 with phase2 := some ⟨wp.whatYouAreGoodAt, .str "From Why Profile"⟩ })
    else (c1, s1)

/-- The result of the four-phase loop. -/
structure IkigaiPhasesOut where
  transcript : List TranscriptMessage
  counts : PhaseAnswerCounts
  storage : LocalPhaseStorage
  st : MSState
  err : Option String

/-- The four-bucket loop of `simulateIkigaiBuilder` (part_007 lines
670-762): skip auto-filled buckets, run the bounded sub-dialogue, then the
summarization pass. -/
def ikigaiPhasesGo (env : Env) (cand synth : ModelInfo) (scenario : Scenario)
    (config : EvaluationConfig) (whyProfile : Option WhyProfile) :
    List String → PhaseAnswerCounts → LocalPhaseStorage →
    List TranscriptMessage → MSState → IkigaiPhasesOut
  | [], counts, storage, transcript, st => ⟨transcript, counts, storage, st, none⟩
  | phase :: restPhases, counts, storage, transcript, st =>
    if (phase = "phase1_love" ∧ counts.love ≥ env.minAnswersPerPhase) ∨
        (phase = "phase2_good_at" ∧ counts.goodAt ≥ env.minAnswersPerPhase) then
      ikigaiPhasesGo env cand synth scenario config whyProfile restPhases counts
        storage transcript st
    else
      let phaseIntro := env.ikigaiPhaseIntro phase
      let transcript1 := transcript ++ [⟨"assistant", phaseIntro, some phase, none⟩]
      let countKey :=
        if phase = "phase1_love" then "love"
        else if phase = "phase2_good_at" then "goodAt"
        else if phase = "phase3_world" then "worldNeeds"
        else "paidFor"
      let out := ikigaiPhaseGo env cand synth scenario config phase countKey
        whyProfile 10 counts transcript1 [⟨"assistant", phaseIntro⟩] st
      match out.err with
      | some e => ⟨out.transcript, out.counts, storage, out.st, some e⟩
      | none =>
        let (pd, st2) := summarizePhase env cand phase out.phaseConversation out.st
        let storage' :=
          match pd with
          | some d =>
            if phase = "phase1_love" then { storage with phase1 := some d }
            else if phase = "phase2_good_at" then { storage with phase2 := some d }
            else if phase = "phase3_world" then { storage with phase3 := some d }
            else if phase = "phase4_paid" then { storage with phase4 := some d }
            else storage
          | none => storage
        ikigaiPhasesGo env cand synth scenario config whyProfile restPhases
          out.counts storage' out.transcript st2

/-- `buildIkigaiProfile` (part_007 lines 1085-1130). -/
def buildIkigaiProfile (whyProfile : Option WhyProfile)
    (storage : LocalPhaseStorage) : IkigaiProfile :=
  let emptyBucket : IkigaiBucket := ⟨.arr [], .str ""⟩
  { whyStatement := jsOr (whyProfile.map (·.whyStatement)) (.str ""),
    love := ⟨jsOr (storage.phase1.map (·.bullets))
        (jsOr (whyProfile.map (·.whatYouLove)) (.arr [])),
      jsOr (storage.phase1.map (·.summary)) (.str "")⟩,
    goodAt := ⟨jsOr (storage.phase2.map (·.bullets))
        (jsOr (whyProfile.map (·.whatYouAreGoodAt)) (.arr [])),
      jsOr (storage.phase2.map (·.summary)) (.str "")⟩,
    worldNeeds := ⟨jsOr (storage.phase3.map (·.bullets)) (.arr []),
      jsOr (storage.phase3.map (·.summary)) (.str "")⟩,
    paidFor := ⟨jsOr (storage.phase4.map (·.bullets)) (.arr []),
      jsOr (storage.phase4.map (·.summary)) (.str "")⟩,
    overlaps := ⟨emptyBucket, emptyBucket, emptyBucket, emptyBucket⟩,
    keyPatterns := [],
    autoFilledPhase1 := storage.phase1.isSome ||
      (whyProfile.elim false (fun wp => lengthOrZero wp.whatYouLove > 0)),
    autoFilledPhase2 := storage.phase2.isSome ||
      (whyProfile.elim false (fun wp => lengthOrZero wp.whatYouAreGoodAt > 0)),
    isComplete := true }

/-- `computeOverlaps` (part_007 lines 780-825): one overlap-computation
call; any failure is caught and yields `none`. -/
def computeOverlaps (env : Env) (cand : ModelInfo) (profile : IkigaiProfile)
    (st : MSState) : Option IkigaiOverlaps × MSState :=
  match sendCandidateModelRequest env cand
      [⟨"user", env.overlapComputationPrompt profile.whyStatement
        profile.love.bullets profile.goodAt.bullets profile.worldNeeds.bullets
        profile.paidFor.bullets⟩] ⟨0, 4096⟩ st with
  | (.error _, st') => (none, st')
  | (.ok response, st') =>
    match extractValidJsonOrch env response with
    | none => (none, st')
    | some parsed =>
      let bucket (key : String) : IkigaiBucket :=
        ⟨jsOr ((parsed.getField key).bind (·.getField "bullets")) (.arr []),
         jsOr ((parsed.getField key).bind (·.getField "summary")) (.str "")⟩
      (some ⟨bucket "passion", bucket "mission", bucket "profession",
        bucket "vocation"⟩, st')

/-- The result of the bucket phase. -/
structure IkigaiResult where
  transcript : List TranscriptMessage
  ikigaiProfile : Option IkigaiProfile

/-- `simulateIkigaiBuilder` (part_007 lines 633-775). -/
def simulateIkigaiBuilder (env : Env) (cand synth : ModelInfo)
    (scenario : Scenario) (config : EvaluationConfig)
    (whyProfile : Option WhyProfile)
    (existingTranscript : List TranscriptMessage) (st : MSState) :
    Except String IkigaiResult × MSState :=
  let (counts0, storage0) := ikigaiAutoFill env whyProfile
  let out := ikigaiPhasesGo env cand synth scenario config whyProfile
    ["phase1_love", "phase2_good_at", "phase3_world", "phase4_paid"]
    counts0 storage0 existingTranscript st
  match out.err with
  | some e => (.error e, out.st)
  | none =>
    let profile := buildIkigaiProfile whyProfile out.storage
    let (overlaps, st2) := computeOverlaps env cand profile out.st
    let profile :=
      match overlaps with
      | some o => { profile with overlaps := o }
      | none => profile
    (.ok ⟨out.transcript, some profile⟩, st2)

/-! ### Decision helper -/

/-- `getDecisionHelperPrompt` (part_007 lines 185-199); the
`conversationHistory` parameter is unused in the source too. -/
def getDecisionHelperPrompt (env : Env) (profile : IkigaiProfile)
    (_conversationHistory : List ChatMsg) : String :=
  env.decisionHelperBasePrompt ++ "\n\nUser's Ikigai Profile:\n- Why: "
    ++ profile.whyStatement.asString
    ++ "\n- What they love: " ++ jsJoinComma profile.love.bullets
    ++ "\n- What they're good at: " ++ jsJoinComma profile.goodAt.bullets
    ++ "\n- What the world needs: " ++ jsJoinComma profile.worldNeeds.bullets
    ++ "\n- What they can be paid for: " ++ jsJoinComma profile.paidFor.bullets

/-- The three-exchange decision loop (part_007 lines 856-895). -/
def decisionGo (env : Env) (cand synth : ModelInfo) (scenario : Scenario)
    (config : EvaluationConfig) (profile : IkigaiProfile) :
    ℕ → List TranscriptMessage → List ChatMsg → MSState →
    List TranscriptMessage × MSState × Option String
  | 0, decisionOutput, _, st => (decisionOutput, st, none)
  | n + 1, decisionOutput, conversationHistory, st =>
    match generateSyntheticUserResponse env synth scenario config conversationHistory st with
    | (.error e, st1) => (decisionOutput, st1, some e)
    | (.ok userResponse, st1) =>
      let out1 := decisionOutput ++ [⟨"user", userResponse, some "decision_helper", none⟩]
      let conv1 := conversationHistory ++ [⟨"user", userResponse⟩]
      match sendCandidateModelRequest env cand
          (⟨"system", getDecisionHelperPrompt env profile conv1⟩ :: conv1)
          ⟨config.candidateTemperature, 4096⟩ st1 with
      | (.error e, st2) => (out1, st2, some e)
      | (.ok coachResponse, st2) =>
        let out2 := out1 ++ [⟨"assistant", coachResponse, some "decision_helper", none⟩]
        let conv2 := conv1 ++ [⟨"assistant", coachResponse⟩]
        if env.aborted then (out2, st2, some "Evaluation aborted")
        else decisionGo env cand synth scenario config profile n out2 conv2 st2

/-- `simulateDecisionHelper` (part_007 lines 830-897): no profile means no
output; otherwise the intro plus three exchanges. -/
def simulateDecisionHelper (env : Env) (cand synth : ModelInfo)
    (scenario : Scenario) (config : EvaluationConfig)
    (ikigaiProfile : Option IkigaiProfile) (st : MSState) :
    Except String (List TranscriptMessage) × MSState :=
  match ikigaiProfile with
  | none => (.ok [], st)
  | some profile =>
    let intro : TranscriptMessage :=
      ⟨"assistant", env.decisionHelperIntro, some "decision_helper", none⟩
    let (out, st', err) := decisionGo env cand synth scenario config profile 3
      [intro] [⟨"assistant", env.decisionHelperIntro⟩] st
    match err with
    | some e => (.error e, st')
    | none => (.ok out, st')

/-! ### The single-run state machine -/

/-- The run record as initialised at the top of `runSingleEvaluation`
(part_007 lines 309-331). -/
def baseRun (cand : ModelInfo) (scenario : Scenario)
    (config : EvaluationConfig) : EvaluationRun :=
  { modelId := cand.id, modelName := cand.name, scenarioId := scenario.id,
    scenarioName := scenario.name, status := "running", transcript := [],
    whyProfile := none, ikigaiProfile := none, decisionHelperOutput := [],
    judgeReport := none,
    metadata := { modelProvider := cand.provider, modelName := cand.name, temperature := config.candidateTemperature, tokenUsage := none, errorMessage := none },
    phaseTokenUsage := none }

/-- The catch block of `runSingleEvaluation` (part_007 lines 412-425):
status `failed`, zeroed token usage, the triggering message recorded; the
run keeps whatever fields were assigned before the exception. -/
def failRun (run : EvaluationRun) (e : String) : EvaluationRun :=
  { run with
    status := "failed",
    metadata := { run.metadata with
      tokenUsage := some ⟨0, 0, 0⟩,
      errorMessage := some e } }

/-- `runSingleEvaluation` (part_007 lines 291-429).  The nested matches
mirror the mutation-plus-single-catch control flow of the source: each
phase's failure reaches the catch with the run fields assigned so far (the
transcript is only assigned at phase boundaries). -/
def runSingleEvaluation (env : Env) (cand synth : ModelInfo)
    (scenario : Scenario) (config : EvaluationConfig) (st0 : MSState) :
    EvaluationRun × MSState :=
  let st := resetTokenTracking st0
  let run0 := baseRun cand scenario config
  if env.hasOpenAIApiKey then
    match simulateWhyFinder env cand synth scenario config
        (setCurrentPhase .whyFinder st) with
    | (.error e, st1) => (failRun run0 e, st1)
    | (.ok wf, st1) =>
      let run1 := { run0 with transcript := wf.transcript, whyProfile := wf.whyProfile }
      match simulateIkigaiBuilder env cand synth scenario config wf.whyProfile
          wf.transcript (setCurrentPhase .ikigai st1) with
      | (.error e, st2) => (failRun run1 e, st2)
      | (.ok ik, st2) =>
        let run2 := { run1 with
          transcript := ik.transcript,
          ikigaiProfile := ik.ikigaiProfile }
        match simulateDecisionHelper env cand synth scenario config
            ik.ikigaiProfile (setCurrentPhase .decisionHelper st2) with
        | (.error e, st3) => (failRun run2 e, st3)
        | (.ok decisionOutput, st3) =>
          let usage := getTokenUsage st3
          ({ run2 with
            decisionHelperOutput := decisionOutput,
            transcript := run2.transcript ++ decisionOutput,
            metadata := { run2.metadata with
              tokenUsage := some ⟨usage.total.input, usage.total.output, usage.total.grand⟩ },
            phaseTokenUsage := some usage,
            status := "completed" }, st3)
  else
    (failRun run0 "OpenAI API key not configured. The synthetic user and judge require an OpenAI API key.", st)

end Orchestrator

namespace Evaluation

/-! The evaluation service of src/src/services/evaluationService.ts: batch
coordination and the leaderboard aggregator.  Storage snapshots and
progress callbacks are external side effects no claim mentions and are not
modelled; the pause busy-wait only delays and is dropped. -/

/-- Stable insertion for a descending sort: a later element passes an
earlier one only when its key is strictly greater, exactly the guarantee
of the (stable) `Array.prototype.sort` with comparator `(a, b) => key(b) -
key(a)`. -/
def insertByDesc {α : Type} (key : α → ℚ) (x : α) : List α → List α
  | [] => [x]
  | y :: ys => if key x ≥ key y then x :: y :: ys else y :: insertByDesc key x ys

/-- Stable descending sort by `key`. -/
def sortByDesc {α : Type} (key : α → ℚ) (l : List α) : List α :=
  l.foldr (insertByDesc key) []

/-- Per-metric averages of a leaderboard entry. -/
structure MetricAverages where
  clarity : ℚ
  structuralCorrectness : ℚ
  consistency : ℚ
  coverage : ℚ
  hallucination : ℚ
  decisionExpertise : ℚ
  safety : ℚ

/-- types.ts `ScenarioScore` as `buildLeaderboard` constructs it. -/
structure ScenarioScore where
  scenarioId : String
  scenarioName : String
  overallScore : ℚ
  metrics : MetricAverages
  generalComments : List Json
  pros : List Json
  cons : List Json
  pinpointedIssues : List String
  tokenUsage : Option TokenUsageSnapshot

/-- types.ts `LeaderboardEntry` (the `runIds` list carries only the
dropped run identifiers and is omitted). -/
structure LeaderboardEntry where
  rank : ℕ
  modelId : String
  modelName : String
  modelProvider : String
  overallScore : ℚ
  metrics : MetricAverages
  runCount : ℕ
  failureCount : ℕ
  scenarioScores : List ScenarioScore
  topPros : List Json
  topCons : List Json
  pinpointedIssues : List Json

/-- `avgMetricFromMetrics` (evaluationService.ts lines 512-519): the
positive per-run scores of one metric, averaged; `0` when none are
positive. -/
def avgMetricFromMetrics (scores : List JudgeReport) (metricKey : String) : ℚ :=
  let values := (scores.map (fun s =>
    match s.metrics.get metricKey with
    | some ms => ms.score
    | none => 0)).filter (fun v => decide (0 < v))
  if values.length = 0 then 0 else values.sum / values.length

/-- A `Map`-backed frequency count in insertion order. -/
def bumpCount : List (String × ℕ) → String → List (String × ℕ)
  | [], k => [(k, 1)]
  | (k', n) :: rest, k =>
    if k' = k then (k', n + 1) :: rest else (k', n) :: bumpCount rest k

/-- `getTopItems` (evaluationService.ts lines 565-587): case-insensitive
deduplication, frequency ranking (stable descending sort), top `count`,
original casing restored from the first occurrence. -/
def getTopItems (items : List Json) (count : ℕ) : List Json :=
  if items.length = 0 then []
  else
    let counts := items.foldl (fun acc item =>
      let normalized := jsLower (jsTrim (Json.asString item))
      if normalized = "" then acc else bumpCount acc normalized) []
    let sorted := (sortByDesc (fun p => (p.2 : ℚ)) counts).take count
    sorted.map (fun p =>
      match items.find? (fun i => jsLower (jsTrim (Json.asString i)) = p.1) with
      | some original => original
      | none => .str p.1)

/-- The `[severity] location: issue` formatting applied to pinpointed
issues in `buildLeaderboard` (lines 421-428 and 441-445). -/
def formatIssue (issue : PinpointedIssue) : String :=
  let location :=
    match issue.exchange with
    | some e => if e.truthy then "Exchange " ++ e.asString
        else (jsOr (some issue.location) (.str "Unknown")).asString
    | none => (jsOr (some issue.location) (.str "Unknown")).asString
  let phrase :=
    match issue.exactPhrase with
    | some p => if p.truthy then ": \"" ++ (Json.asString p).take 50 ++ "...\"" else ""
    | none => ""
  "[" ++ issue.severity ++ "] " ++ location ++ phrase ++ ": " ++ issue.issue.asString

/-- One leaderboard entry for a model id, `none` when the model has no
runs or no judged runs (evaluationService.ts lines 378-496).  The JS `Map`
grouping preserves run order, which is the order-preserving filter. -/
def buildEntry (runs : List EvaluationRun) (models : List ModelInfo)
    (modelId : String) : Option LeaderboardEntry :=
  let modelRuns := runs.filter (fun r => r.modelId = modelId)
  if modelRuns.length = 0 then none
  else
    let model := models.find? (fun m => m.id = modelId)
    let nameFallback :=
      match modelRuns.head? with
      | some r => if r.modelName ≠ "" then r.modelName else "Unknown Model"
      | none => "Unknown Model"
    let modelName :=
      match model with
      | some m => if m.name ≠ "" then m.name else nameFallback
      | none => nameFallback
    let modelProvider :=
      match model with
      | some m => if m.provider ≠ "" then m.provider else "unknown"
      | none => "unknown"
    let scores := modelRuns.filterMap (·.judgeReport)
    if scores.length = 0 then none
    else
      let avgOverall := (scores.map (·.overallScore)).sum / scores.length
      let metrics : MetricAverages :=
        ⟨avgMetricFromMetrics scores "clarity",
         avgMetricFromMetrics scores "structuralCorrectness",
         avgMetricFromMetrics scores "consistency",
         avgMetricFromMetrics scores "coverage",
         avgMetricFromMetrics scores "hallucination",
         avgMetricFromMetrics scores "decisionExpertise",
         avgMetricFromMetrics scores "safety"⟩
      let failureCount := (scores.map (fun s => s.pinpointedIssues.length)).sum
      let allPros := scores.flatMap (·.pros)
      let allCons := scores.flatMap (·.cons)
      let allIssues := scores.flatMap (fun s => s.pinpointedIssues.map formatIssue)
      let scenarioScores := modelRuns.filterMap (fun r =>
        r.judgeReport.map (fun report =>
          ({ scenarioId := r.scenarioId, scenarioName := r.scenarioName,
             overallScore := report.overallScore,
             metrics := ⟨report.metrics.clarity.score,
               report.metrics.structuralCorrectness.score,
               report.metrics.consistency.score, report.metrics.coverage.score,
               report.metrics.hallucination.score,
               report.metrics.decisionExpertise.score,
               report.metrics.safety.score⟩,
             generalComments := report.generalComments,
             pros := report.pros, cons := report.cons,
             pinpointedIssues := report.pinpointedIssues.map formatIssue,
             tokenUsage := r.phaseTokenUsage } : ScenarioScore)))
      some
        { rank := 0, modelId := modelId, modelName := modelName,
          modelProvider := modelProvider, overallScore := avgOverall,
          metrics := metrics, runCount := modelRuns.length,
          failureCount := failureCount, scenarioScores := scenarioScores,
          topPros := getTopItems allPros 5, topCons := getTopItems allCons 5,
          pinpointedIssues := getTopItems (allIssues.map .str) 5 }

/-- First-occurrence deduplication (a JS `Set` keeps insertion order). -/
def insertionDedupGo (seen : List String) : List String → List String
  | [] => []
  | x :: xs =>
    if x ∈ seen then insertionDedupGo seen xs
    else x :: insertionDedupGo (x :: seen) xs

/-- First-occurrence deduplication of a string list. -/
def insertionDedup (l : List String) : List String := insertionDedupGo [] l

/-- The entries of `buildLeaderboard` before sorting: every model id seen
across runs and the candidate list, in first-appearance order, kept when
it has at least one judged run. -/
def leaderboardEntriesPreSort (runs : List EvaluationRun)
    (models : List ModelInfo) : List LeaderboardEntry :=
  (insertionDedup (runs.map (·.modelId) ++ models.map (·.id))).filterMap
    (buildEntry runs models)

/-- The `entries.forEach((entry, idx) => entry.rank = idx + 1)` pass. -/
def assignRanks : ℕ → List LeaderboardEntry → List LeaderboardEntry
  | _, [] => []
  | i, e :: rest => { e with rank := i } :: assignRanks (i + 1) rest

/-- `buildLeaderboard` (evaluationService.ts lines 349-507): group, build
entries, sort by overall score descending (stable), assign dense 1-based
ranks. -/
def buildLeaderboard (runs : List EvaluationRun) (models : List ModelInfo) :
    List LeaderboardEntry :=
  assignRanks 1 (sortByDesc (fun e => e.overallScore)
    (leaderboardEntriesPreSort runs models))

/-- `selectScenarios` (evaluationService.ts lines 326-344). -/
def selectScenarios (env : Env) (scenarios : List Scenario)
    (config : EvaluationConfig) : List Scenario :=
  let count := min config.scenariosPerModel scenarios.length
  if count = 0 then []
  else if config.randomScenario then (env.shuffle scenarios).take count
  else scenarios.take count

/-- The judging branch of `runEvaluation` (lines 236-261), entered only
for a completed run with a non-empty transcript: set the judge phase, run
the judge (the part_006 version, re-exported by the services index;
the two judge copies share their interface), attach the report and update
the run's token breakdown with the judge slice. -/
def judgeAndAttach (env : Env) (judgeModel : ModelInfo) (run : EvaluationRun)
    (st : MSState) : EvaluationRun × MSState :=
  let st := setCurrentPhase .judge st
  let (judgeReport, st') := JudgeV2.judgeRun env run judgeModel st
  let run := { run with judgeReport := some judgeReport }
  let currentTokenUsage := getTokenUsage st'
  let run :=
    match run.phaseTokenUsage with
    | none => { run with phaseTokenUsage := some currentTokenUsage }
    | some prev => { run with phaseTokenUsage := some { prev with
        judge := currentTokenUsage.judge, total := currentTokenUsage.total } }
  (run, st')

/-- The per-scenario loop of `runEvaluation` (lines 188-287): abort check,
one orchestrated run, judging if and only if the run completed with a
non-empty transcript.  The boolean reports whether the abort flag broke
the loop. -/
def runsForScenarios (env : Env) (cand synth judgeModel : ModelInfo)
    (config : EvaluationConfig) :
    List Scenario → List EvaluationRun → MSState →
    List EvaluationRun × MSState × Bool
  | [], acc, st => (acc, st, false)
  | scenario :: rest, acc, st =>
    if env.abortRequested then (acc, st, true)
    else
      let (run, st1) := Orchestrator.runSingleEvaluation env cand synth scenario config st
      let (run', st2) :=
        if run.status = "completed" ∧ run.transcript ≠ [] then
          judgeAndAttach env judgeModel run st1
        else (run, st1)
      runsForScenarios env cand synth judgeModel config rest (acc ++ [run']) st2

/-- The per-model loop of `runEvaluation` (lines 184-290). -/
def runsForModels (env : Env) (synth judgeModel : ModelInfo)
    (scenarios : List Scenario) (config : EvaluationConfig) :
    List ModelInfo → List EvaluationRun → MSState →
    List EvaluationRun × MSState
  | [], acc, st => (acc, st)
  | model :: rest, acc, st =>
    let selected := selectScenarios env scenarios config
    let (acc', st', aborted) :=
      runsForScenarios env model synth judgeModel config selected acc st
    if aborted then (acc', st')
    else runsForModels env synth judgeModel scenarios config rest acc' st'

/-- The value returned by `runEvaluation`. -/
structure BatchResult where
  runs : List EvaluationRun
  leaderboard : List LeaderboardEntry

/-- `runEvaluation` (evaluationService.ts lines 161-320): run every
(model, scenario) unit, then recompute the leaderboard from all runs. -/
def runEvaluation (env : Env) (candidateModels : List ModelInfo)
    (synth judgeModel : ModelInfo) (scenarios : List Scenario)
    (config : EvaluationConfig) (st : MSState) : BatchResult × MSState :=
  let (allRuns, st') := runsForModels env synth judgeModel scenarios config
    candidateModels [] st
  (⟨allRuns, buildLeaderboard allRuns candidateModels⟩, st')

/-- Modelled from the spec: the top-level result presentation lives in the
main `BrainDriveEvaluator` component, which is not among the staged
sources.  Per the spec, "a batch where every run failed surfaces the first
run's error message as a top-level failure"; a batch with any success
surfaces no top-level error. -/
def surfaceBatchError (runs : List EvaluationRun) : Option String :=
  match runs with
  | [] => none
  | first :: _ =>
    if runs.all (fun r => r.status == "failed") then
      some (first.metadata.errorMessage.getD "Unknown error")
    else none

end Evaluation

/-! ## Concrete fixtures

Small closed inputs used by the witness and counterexample theorems. -/

/-- A fresh model-service state. -/
def st0 : MSState := ⟨⟨0, 0, 0, 0, 0, 0⟩, zeroPhaseTokens, .whyFinder, (0, 0)⟩

/-- A candidate model descriptor. -/
def mCand : ModelInfo := ⟨"cand-1", "CandModel", "openrouter"⟩

/-- A synthetic-user model descriptor. -/
def mSynth : ModelInfo := ⟨"gpt-4o", "GPT-4o", "openai"⟩

/-- A judge model descriptor. -/
def mJudge : ModelInfo := ⟨"gpt-4o-j", "GPT-4o-J", "openai"⟩

/-- A scenario. -/
def scen0 : Scenario := ⟨"s1", "Scenario One", "persona", [], [], [], [], "ctx"⟩

/-- A configuration: one scenario per model, no shuffling, temperature 0. -/
def cfg0 : EvaluationConfig := ⟨1, false, 0, 0, ""⟩

/-- An OpenAI chat-completion body carrying `s` and usage (1, 1). -/
def okOpenAIBody (s : String) : Json :=
  .obj [("choices", .arr [.obj [("message", .obj [("content", .str s)])]]),
        ("usage", .obj [("prompt_tokens", .num 1), ("completion_tokens", .num 1)])]

/-- A candidate gateway body carrying `s` and usage (1, 1). -/
def okCandidateBody (s : String) : Json :=
  .obj [("text", .str s),
        ("usage", .obj [("prompt_tokens", .num 1), ("completion_tokens", .num 1)])]

/-- A benign environment: both gateways answer with short fixed text, JSON
parsing always fails (extraction passes fall back to their defaults), no
abort, one answer per bucket suffices. -/
def envBase : Env :=
  { hasOpenAIApiKey := true,
    rawOpenAI := fun _ _ => .ok (okOpenAIBody "Okay."),
    rawCandidate := fun _ _ => .ok (okCandidateBody "Fine."),
    jsonParse := fun _ => none,
    stringifyProfiles := fun _ _ => "profiles",
    aborted := false,
    abortRequested := false,
    shuffle := id,
    initialGreeting := "Hello",
    coachSystemPrompt := fun _ _ _ => "sys",
    whyExtractionPrompt := fun _ => "extract",
    phaseSummarizationPrompt := fun _ _ => "sum",
    overlapComputationPrompt := fun _ _ _ _ _ => "overlap",
    ikigaiBasePrompt := "base",
    ikigaiPhasePrompt := fun _ => "phasep",
    ikigaiPhaseIntro := fun _ => "Let us explore.",
    decisionHelperIntro := "Decision time.",
    decisionHelperBasePrompt := "dbase",
    minAnswersPerPhase := 1 }

/-- A run record as initialised by the orchestrator, used as the judged
run of the judge-service fixtures. -/
def runFix : EvaluationRun := Orchestrator.baseRun mCand scen0 cfg0

/-- A judge response whose seven metric scores are distinct numbers. -/
def parsedC1 : Json :=
  .obj [("clarity", .num 8), ("structuralCorrectness", .num 7),
        ("consistency", .num 9), ("coverage", .num 6),
        ("hallucination", .num 10), ("decisionExpertise", .num 7.5),
        ("safety", .num 4)]

/-- An environment whose judge call returns `{}` and whose `JSON.parse`
yields `parsedC1`. -/
def envC1 : Env :=
  { envBase with
    rawOpenAI := fun _ _ => .ok (okOpenAIBody "{}"),
    jsonParse := fun _ => some parsedC1 }

/-- A judge response whose seven metric scores are all 5 (fewer than 3
distinct values) and which carries its own general comment. -/
def parsedC3 : Json :=
  .obj [("clarity", .num 5), ("structuralCorrectness", .num 5),
        ("consistency", .num 5), ("coverage", .num 5),
        ("hallucination", .num 5), ("decisionExpertise", .num 5),
        ("safety", .num 5),
        ("generalComments", .arr [.str "All good"])]

/-- An environment whose judge call returns `{}` and whose `JSON.parse`
yields `parsedC3`. -/
def envC3 : Env :=
  { envBase with
    rawOpenAI := fun _ _ => .ok (okOpenAIBody "{}"),
    jsonParse := fun _ => some parsedC3 }

/-- An environment whose synthetic-user model answers with the dangling
fragment `. ` (the C7 scenario). -/
def envC7 : Env :=
  { envBase with rawOpenAI := fun _ _ => .ok (okOpenAIBody ". ") }

/-- An environment whose candidate gateway always throws. -/
def envC4 : Env :=
  { envBase with rawCandidate := fun _ _ => .error "gateway down" }

/-- An environment whose synthetic-user gateway always throws. -/
def envC4f : Env :=
  { envBase with rawOpenAI := fun _ _ => .error "boom" }

/-- A candidate response body whose extracted text is empty. -/
def emptyTextBody : Json := .obj [("text", .str "")]

/-- An environment whose candidate model returns an empty response exactly
at discovery exchange 5 (the coach call there carries 11 messages: the
system prompt plus the greeting plus four completed exchange pairs plus
the exchange-5 user turn). -/
def envC5 : Env :=
  { envBase with
    rawCandidate := fun msgs _ =>
      if msgs.length = 11 then .ok emptyTextBody else .ok (okCandidateBody "Fine.") }

/-- An environment with no OpenAI key configured: every run fails before
its first exchange. -/
def envC9 : Env := { envBase with hasOpenAIApiKey := false }

/-- A state whose current phase is `judge`. -/
def stJudge : MSState := setCurrentPhase .judge st0

/-- The usage block of `okOpenAIBody`. -/
def usageOneOne : Json :=
  .obj [("prompt_tokens", .num 1), ("completion_tokens", .num 1)]

/-- The user/assistant pair of discovery exchange `k` with the given turn
contents: the shape every discovery exchange is proved to have. -/
def discoveryPairAt (k : ℕ) (uc : String × String) : List TranscriptMessage :=
  [⟨"user", uc.1, some (Orchestrator.whyPhaseOf k), some k⟩,
   ⟨"assistant", uc.2, some (Orchestrator.whyPhaseOf k), some k⟩]

/-- The C7 conversation history: one coach (assistant) turn. -/
def histC7 : List ChatMsg := [⟨"assistant", "What energizes you?"⟩]

/-- The last message of `histC7`. -/
def lastC7 : ChatMsg := ⟨"assistant", "What energizes you?"⟩

/-- The model-service state after the C7 synthetic-user call. -/
def stC7 : MSState :=
  (sendOpenAIRequest envC7 mSynth (Orchestrator.synthCallMsgs scen0 cfg0 histC7) ⟨0, 4096⟩ st0).2

/-! ## Theorems -/

/-- `calculateOverallScore` written out: the weighted sum over the seven
metric scores divided by the weight sum. -/
theorem calculateOverallScore_eq (m : EvaluationMetrics) :
    calculateOverallScore m =
      (0.15 * m.clarity.score + 0.10 * m.structuralCorrectness.score +
        0.15 * m.consistency.score + 0.15 * m.coverage.score +
        0.20 * m.hallucination.score + 0.15 * m.decisionExpertise.score +
        0.10 * m.safety.score) /
        (0.15 + 0.10 + 0.15 + 0.15 + 0.20 + 0.15 + 0.10) := by
  simp only [calculateOverallScore, METRIC_WEIGHTS, List.foldl,
    EvaluationMetrics.get]
  norm_num
  ring

/-- The seven fixed metric weights sum to 1. -/
theorem metricWeights_sum_one :
    (0.15 + 0.10 + 0.15 + 0.15 + 0.20 + 0.15 + 0.10 : ℚ) = 1 := by norm_num

/-- C1: for every JudgeReport produced by `judgeRun` from a successfully
parsed judge response, `overallScore` equals the weighted mean of the seven
metric scores — Σ(score × weight) / Σ(weight) with the fixed weights
clarity 0.15, structuralCorrectness 0.10, consistency 0.15, coverage 0.15,
hallucination 0.20, decisionExpertise 0.15, safety 0.10, which sum to 1.
Proved as an exact equality over ℚ, which implies the 1e-6 tolerance. -/
theorem C1_overallScore_weighted_mean (env : Env) (run : EvaluationRun)
    (judgeModel : ModelInfo) (st : MSState) (response : String) (parsed : Json)
    (hcall : (sendOpenAIRequest env judgeModel (JudgeV1.judgeCallMsgs env run)
      ⟨0, 4096⟩ st).1 = .ok response)
    (hparse : extractValidJsonV1 env response = some parsed) :
    (JudgeV1.judgeRun env run judgeModel st).1.overallScore =
      (0.15 * (JudgeV1.judgeRun env run judgeModel st).1.metrics.clarity.score +
        0.10 * (JudgeV1.judgeRun env run judgeModel st).1.metrics.structuralCorrectness.score +
        0.15 * (JudgeV1.judgeRun env run judgeModel st).1.metrics.consistency.score +
        0.15 * (JudgeV1.judgeRun env run judgeModel st).1.metrics.coverage.score +
        0.20 * (JudgeV1.judgeRun env run judgeModel st).1.metrics.hallucination.score +
        0.15 * (JudgeV1.judgeRun env run judgeModel st).1.metrics.decisionExpertise.score +
        0.10 * (JudgeV1.judgeRun env run judgeModel st).1.metrics.safety.score) /
        (0.15 + 0.10 + 0.15 + 0.15 + 0.20 + 0.15 + 0.10) ∧
    (0.15 + 0.10 + 0.15 + 0.15 + 0.20 + 0.15 + 0.10 : ℚ) = 1 := by
  refine ⟨?_, metricWeights_sum_one⟩
  unfold JudgeV1.judgeRun
  rcases hc : sendOpenAIRequest env judgeModel (JudgeV1.judgeCallMsgs env run)
    ⟨0, 4096⟩ st with ⟨r, st'⟩
  rw [hc] at hcall
  simp only at hcall
  subst hcall
  simp only [hparse, JudgeV1.reportFromParsed]
  exact calculateOverallScore_eq _

/-- C1 witness: the weighted-mean identity evaluated at a concrete
environment whose judge response parses to seven distinct scores. -/
theorem C1_overallScore_weighted_mean_witness :
    (JudgeV1.judgeRun envC1 runFix mJudge st0).1.overallScore =
      (0.15 * (JudgeV1.judgeRun envC1 runFix mJudge st0).1.metrics.clarity.score +
        0.10 * (JudgeV1.judgeRun envC1 runFix mJudge st0).1.metrics.structuralCorrectness.score +
        0.15 * (JudgeV1.judgeRun envC1 runFix mJudge st0).1.metrics.consistency.score +
        0.15 * (JudgeV1.judgeRun envC1 runFix mJudge st0).1.metrics.coverage.score +
        0.20 * (JudgeV1.judgeRun envC1 runFix mJudge st0).1.metrics.hallucination.score +
        0.15 * (JudgeV1.judgeRun envC1 runFix mJudge st0).1.metrics.decisionExpertise.score +
        0.10 * (JudgeV1.judgeRun envC1 runFix mJudge st0).1.metrics.safety.score) /
        (0.15 + 0.10 + 0.15 + 0.15 + 0.20 + 0.15 + 0.10) ∧
    (0.15 + 0.10 + 0.15 + 0.15 + 0.20 + 0.15 + 0.10 : ℚ) = 1 :=
  C1_overallScore_weighted_mean envC1 runFix mJudge st0 "{}" parsedC1 rfl rfl

/-- The clamp `Math.max(0, Math.min(10, x))` lands in `[0, 10]`. -/
theorem clampScore_bounds (x : ℚ) :
    0 ≤ max 0 (min 10 x) ∧ max 0 (min 10 x) ≤ 10 :=
  ⟨le_max_left 0 _, max_le (by norm_num) (min_le_left _ _)⟩

/-- C2 (code bug evidence): the judgeService.ts `parseMetricScore` returns
a plain numeric score unclamped — at input 15 the resulting score is 15,
outside [0, 10] — while the part_006 variant keeps every resulting score
within [0, 10] on every input. -/
theorem C2_plain_number_unclamped :
    (JudgeV1.parseMetricScore (some (Json.num 15))).score = 15 ∧
    ¬ (JudgeV1.parseMetricScore (some (Json.num 15))).score ≤ 10 ∧
    ∀ v : Option Json, 0 ≤ (JudgeV2.parseMetricScore v).score ∧
      (JudgeV2.parseMetricScore v).score ≤ 10 := by
  refine ⟨rfl, ?_, ?_⟩
  · rw [show (JudgeV1.parseMetricScore (some (Json.num 15))).score = 15 from rfl]
    norm_num
  · intro v
    have hzero : (0 : ℚ) ≤ 0 ∧ (0 : ℚ) ≤ 10 := ⟨le_refl 0, by norm_num⟩
    rcases v with _ | j
    · exact hzero
    · unfold JudgeV2.parseMetricScore
      split
      · exact hzero
      · split
        · split
          all_goals exact clampScore_bounds _
        · exact hzero

/-- C3 (code bug evidence): at a parsed judge response whose seven scores
are all 5, the part_006 `judgeRun` leaves every metric score and the
overall score untouched and the anti-anchoring condition holds (only one
distinct value), yet the returned report's `generalComments` is the parsed
comment list — the warning pushed by the check was overwritten by the
subsequent assignment and is absent. -/
theorem C3_anchoring_warning_lost :
    (JudgeV2.judgeRun envC3 runFix mJudge st0).1.metrics.clarity.score = 5 ∧
    (JudgeV2.judgeRun envC3 runFix mJudge st0).1.metrics.safety.score = 5 ∧
    ([(JudgeV2.judgeRun envC3 runFix mJudge st0).1.metrics.clarity.score,
      (JudgeV2.judgeRun envC3 runFix mJudge st0).1.metrics.structuralCorrectness.score,
      (JudgeV2.judgeRun envC3 runFix mJudge st0).1.metrics.consistency.score,
      (JudgeV2.judgeRun envC3 runFix mJudge st0).1.metrics.coverage.score,
      (JudgeV2.judgeRun envC3 runFix mJudge st0).1.metrics.hallucination.score,
      (JudgeV2.judgeRun envC3 runFix mJudge st0).1.metrics.decisionExpertise.score,
      (JudgeV2.judgeRun envC3 runFix mJudge st0).1.metrics.safety.score].dedup.length < 3) ∧
    (JudgeV2.judgeRun envC3 runFix mJudge st0).1.overallScore = 5 ∧
    (JudgeV2.judgeRun envC3 runFix mJudge st0).1.generalComments = [Json.str "All good"] ∧
    Json.str JudgeV2.anchoringWarning ∉
      (JudgeV2.judgeRun envC3 runFix mJudge st0).1.generalComments := by
  have h5 : ∀ q : ℚ, ([q, q, q, q, q, q, q] : List ℚ).dedup = [q] := by
    intro q; simp
  refine ⟨rfl, rfl, ?_, ?_, rfl, ?_⟩
  · rw [show ([(JudgeV2.judgeRun envC3 runFix mJudge st0).1.metrics.clarity.score,
      (JudgeV2.judgeRun envC3 runFix mJudge st0).1.metrics.structuralCorrectness.score,
      (JudgeV2.judgeRun envC3 runFix mJudge st0).1.metrics.consistency.score,
      (JudgeV2.judgeRun envC3 runFix mJudge st0).1.metrics.coverage.score,
      (JudgeV2.judgeRun envC3 runFix mJudge st0).1.metrics.hallucination.score,
      (JudgeV2.judgeRun envC3 runFix mJudge st0).1.metrics.decisionExpertise.score,
      (JudgeV2.judgeRun envC3 runFix mJudge st0).1.metrics.safety.score] : List ℚ) =
      [5, 5, 5, 5, 5, 5, 5] from rfl, h5]
    norm_num
  · rw [show (JudgeV2.judgeRun envC3 runFix mJudge st0).1.overallScore =
      calculateOverallScore (JudgeV2.judgeRun envC3 runFix mJudge st0).1.metrics from rfl,
      calculateOverallScore_eq]
    simp only [show (JudgeV2.judgeRun envC3 runFix mJudge st0).1.metrics.clarity.score = (5:ℚ) from rfl,
      show (JudgeV2.judgeRun envC3 runFix mJudge st0).1.metrics.structuralCorrectness.score = (5:ℚ) from rfl,
      show (JudgeV2.judgeRun envC3 runFix mJudge st0).1.metrics.consistency.score = (5:ℚ) from rfl,
      show (JudgeV2.judgeRun envC3 runFix mJudge st0).1.metrics.coverage.score = (5:ℚ) from rfl,
      show (JudgeV2.judgeRun envC3 runFix mJudge st0).1.metrics.hallucination.score = (5:ℚ) from rfl,
      show (JudgeV2.judgeRun envC3 runFix mJudge st0).1.metrics.decisionExpertise.score = (5:ℚ) from rfl,
      show (JudgeV2.judgeRun envC3 runFix mJudge st0).1.metrics.safety.score = (5:ℚ) from rfl]
    norm_num
  · rw [show (JudgeV2.judgeRun envC3 runFix mJudge st0).1.generalComments =
      [Json.str "All good"] from rfl]
    simp [JudgeV2.anchoringWarning]

/-- C10: a `sendOpenAIRequest` call that receives token usage adds the
input and output counts to the synthetic-role accumulators regardless of
the current phase; when the current phase is `judge` the same counts are
additionally added to the judge accumulators, so the `getTokenUsage` grand
total — synthetic + candidate + judge — grows by twice the call's tokens:
each judge call is counted once under the synthetic role and once under
the judge role. -/
theorem C10_judge_tokens_double_counted (env : Env) (model : ModelInfo)
    (messages : List ChatMsg) (options : ReqOptions) (st : MSState)
    (body u : Json) (i o : ℕ)
    (hkey : env.hasOpenAIApiKey = true)
    (hresp : env.rawOpenAI messages options = .ok body)
    (hu : body.getField "usage" = some u)
    (hut : u.truthy = true)
    (hi : tokenCount (u.getField "prompt_tokens") = i)
    (ho : tokenCount (u.getField "completion_tokens") = o) :
    (sendOpenAIRequest env model messages options st).2.totalTokenUsage.syntheticInput =
      st.totalTokenUsage.syntheticInput + i ∧
    (sendOpenAIRequest env model messages options st).2.totalTokenUsage.syntheticOutput =
      st.totalTokenUsage.syntheticOutput + o ∧
    (st.currentPhase = .judge →
      (sendOpenAIRequest env model messages options st).2.totalTokenUsage.judgeInput =
        st.totalTokenUsage.judgeInput + i ∧
      (sendOpenAIRequest env model messages options st).2.totalTokenUsage.judgeOutput =
        st.totalTokenUsage.judgeOutput + o ∧
      (getTokenUsage (sendOpenAIRequest env model messages options st).2).total.grand =
        (getTokenUsage st).total.grand + 2 * (i + o)) := by
  have hst2 : (sendOpenAIRequest env model messages options st).2 =
      recordOpenAIUsage i o st := by
    simp only [sendOpenAIRequest, hkey, if_true, hresp]
    simp only [hu, hut, if_true, hi, ho]
    simp only [apply_ite Prod.snd]
    simp
  rw [hst2]
  refine ⟨?_, ?_, fun hph => ?_⟩
  · unfold recordOpenAIUsage
    dsimp only
    split <;> rfl
  · unfold recordOpenAIUsage
    dsimp only
    split <;> rfl
  · unfold recordOpenAIUsage
    dsimp only
    split
    · refine ⟨rfl, rfl, ?_⟩
      simp only [getTokenUsage]
      omega
    · rename_i h
      exact absurd hph h

/-- C10 witness: with the judge phase current and a usage block of one
input and one output token, the synthetic accumulators and the judge
accumulators each grow by one, and the grand total grows by four. -/
theorem C10_judge_tokens_double_counted_witness :
    (sendOpenAIRequest envBase mJudge [] ⟨0, 4096⟩ stJudge).2.totalTokenUsage.syntheticInput =
      stJudge.totalTokenUsage.syntheticInput + 1 ∧
    (sendOpenAIRequest envBase mJudge [] ⟨0, 4096⟩ stJudge).2.totalTokenUsage.syntheticOutput =
      stJudge.totalTokenUsage.syntheticOutput + 1 ∧
    (stJudge.currentPhase = .judge →
      (sendOpenAIRequest envBase mJudge [] ⟨0, 4096⟩ stJudge).2.totalTokenUsage.judgeInput =
        stJudge.totalTokenUsage.judgeInput + 1 ∧
      (sendOpenAIRequest envBase mJudge [] ⟨0, 4096⟩ stJudge).2.totalTokenUsage.judgeOutput =
        stJudge.totalTokenUsage.judgeOutput + 1 ∧
      (getTokenUsage (sendOpenAIRequest envBase mJudge [] ⟨0, 4096⟩ stJudge).2).total.grand =
        (getTokenUsage stJudge).total.grand + 2 * (1 + 1)) :=
  C10_judge_tokens_double_counted envBase mJudge [] ⟨0, 4096⟩ stJudge
    (okOpenAIBody "Okay.") usageOneOne 1 1 rfl rfl rfl rfl rfl rfl

/-- C7: whenever the last history message is an assistant turn and the
synthetic-user call returns a non-empty response, the three safeguards of
`Orchestrator.generateSyntheticUserResponse` are applied in order — a trimmed response
beginning with `.`, `?` or `!` yields the canned partial-sentence
deflection; otherwise a response containing a coaching-register phrase
yields the canned coaching deflection; otherwise an overlap of more than
12 long case-folded tokens with the previous assistant turn yields the
canned mirroring deflection — so a response tripping any safeguard is
never returned unchanged: the result is one of the three canned lines. -/
theorem C7_safeguards_in_order (env : Env) (synth : ModelInfo)
    (scenario : Scenario) (config : EvaluationConfig)
    (history : List ChatMsg) (st st' : MSState) (response : String)
    (last : ChatMsg)
    (hcall : sendOpenAIRequest env synth
      (Orchestrator.synthCallMsgs scenario config history) ⟨0, 4096⟩ st = (.ok response, st'))
    (hne : ¬ jsTrim response = "")
    (hlast : history.getLast? = some last)
    (hrole : last.role = "assistant") :
    (Orchestrator.startsWithFragment (jsTrim response) = true →
      Orchestrator.generateSyntheticUserResponse env synth scenario config history st =
        (.ok Orchestrator.CANNED_PARTIAL, st')) ∧
    (Orchestrator.startsWithFragment (jsTrim response) = false →
      Orchestrator.containsCoachingPhrase (jsTrim response) = true →
      Orchestrator.generateSyntheticUserResponse env synth scenario config history st =
        (.ok Orchestrator.CANNED_COACHING, st')) ∧
    (Orchestrator.startsWithFragment (jsTrim response) = false →
      Orchestrator.containsCoachingPhrase (jsTrim response) = false →
      12 < Orchestrator.mirrorOverlap last.content (jsTrim response) →
      Orchestrator.generateSyntheticUserResponse env synth scenario config history st =
        (.ok Orchestrator.CANNED_MIRROR, st')) ∧
    ((Orchestrator.startsWithFragment (jsTrim response) = true ∨
      Orchestrator.containsCoachingPhrase (jsTrim response) = true ∨
      12 < Orchestrator.mirrorOverlap last.content (jsTrim response)) →
      (Orchestrator.generateSyntheticUserResponse env synth scenario config history st).1 =
          .ok Orchestrator.CANNED_PARTIAL ∨
      (Orchestrator.generateSyntheticUserResponse env synth scenario config history st).1 =
          .ok Orchestrator.CANNED_COACHING ∨
      (Orchestrator.generateSyntheticUserResponse env synth scenario config history st).1 =
          .ok Orchestrator.CANNED_MIRROR) := by
  have hgen : Orchestrator.generateSyntheticUserResponse env synth scenario config history st =
      (if Orchestrator.startsWithFragment (jsTrim response) then (.ok Orchestrator.CANNED_PARTIAL, st')
       else if Orchestrator.containsCoachingPhrase (jsTrim response) then (.ok Orchestrator.CANNED_COACHING, st')
       else if Orchestrator.mirrorOverlap last.content (jsTrim response) > 12 then (.ok Orchestrator.CANNED_MIRROR, st')
       else (.ok response, st')) := by
    simp only [Orchestrator.generateSyntheticUserResponse, hcall, hlast, hrole, if_neg hne]
    simp
  have hA : Orchestrator.startsWithFragment (jsTrim response) = true →
      Orchestrator.generateSyntheticUserResponse env synth scenario config history st =
        (.ok Orchestrator.CANNED_PARTIAL, st') := by
    intro h1; rw [hgen, if_pos h1]
  have hB : Orchestrator.startsWithFragment (jsTrim response) = false →
      Orchestrator.containsCoachingPhrase (jsTrim response) = true →
      Orchestrator.generateSyntheticUserResponse env synth scenario config history st =
        (.ok Orchestrator.CANNED_COACHING, st') := by
    intro h1 h2
    rw [hgen, if_neg (by simp [h1]), if_pos h2]
  have hC : Orchestrator.startsWithFragment (jsTrim response) = false →
      Orchestrator.containsCoachingPhrase (jsTrim response) = false →
      12 < Orchestrator.mirrorOverlap last.content (jsTrim response) →
      Orchestrator.generateSyntheticUserResponse env synth scenario config history st =
        (.ok Orchestrator.CANNED_MIRROR, st') := by
    intro h1 h2 h3
    rw [hgen, if_neg (by simp [h1]), if_neg (by simp [h2]), if_pos h3]
  refine ⟨hA, hB, hC, fun h => ?_⟩
  by_cases h1 : Orchestrator.startsWithFragment (jsTrim response) = true
  · exact Or.inl (by rw [hA h1])
  have h1f : Orchestrator.startsWithFragment (jsTrim response) = false := by simpa using h1
  by_cases h2 : Orchestrator.containsCoachingPhrase (jsTrim response) = true
  · exact Or.inr (Or.inl (by rw [hB h1f h2]))
  have h2f : Orchestrator.containsCoachingPhrase (jsTrim response) = false := by simpa using h2
  rcases h with h | h | h
  · exact absurd h h1
  · exact absurd h h2
  · exact Or.inr (Or.inr (by rw [hC h1f h2f h]))

/-- C7 witness: at a synthetic-user response `". "` following an assistant
turn, the first safeguard fires and the canned partial-sentence deflection
is returned. -/
theorem C7_safeguards_in_order_witness :
    (Orchestrator.startsWithFragment (jsTrim ". ") = true →
      Orchestrator.generateSyntheticUserResponse envC7 mSynth scen0 cfg0 histC7 st0 =
        (.ok Orchestrator.CANNED_PARTIAL, stC7)) ∧
    (Orchestrator.startsWithFragment (jsTrim ". ") = false →
      Orchestrator.containsCoachingPhrase (jsTrim ". ") = true →
      Orchestrator.generateSyntheticUserResponse envC7 mSynth scen0 cfg0 histC7 st0 =
        (.ok Orchestrator.CANNED_COACHING, stC7)) ∧
    (Orchestrator.startsWithFragment (jsTrim ". ") = false →
      Orchestrator.containsCoachingPhrase (jsTrim ". ") = false →
      12 < Orchestrator.mirrorOverlap lastC7.content (jsTrim ". ") →
      Orchestrator.generateSyntheticUserResponse envC7 mSynth scen0 cfg0 histC7 st0 =
        (.ok Orchestrator.CANNED_MIRROR, stC7)) ∧
    ((Orchestrator.startsWithFragment (jsTrim ". ") = true ∨
      Orchestrator.containsCoachingPhrase (jsTrim ". ") = true ∨
      12 < Orchestrator.mirrorOverlap lastC7.content (jsTrim ". ")) →
      (Orchestrator.generateSyntheticUserResponse envC7 mSynth scen0 cfg0 histC7 st0).1 =
          .ok Orchestrator.CANNED_PARTIAL ∨
      (Orchestrator.generateSyntheticUserResponse envC7 mSynth scen0 cfg0 histC7 st0).1 =
          .ok Orchestrator.CANNED_COACHING ∨
      (Orchestrator.generateSyntheticUserResponse envC7 mSynth scen0 cfg0 histC7 st0).1 =
          .ok Orchestrator.CANNED_MIRROR) :=
  C7_safeguards_in_order envC7 mSynth scen0 cfg0 histC7 st0 stC7 ". " lastC7
    rfl (by decide) rfl rfl

/-- A model id with no judged runs yields no leaderboard entry. -/
theorem buildEntry_none_of_no_reports (runs : List EvaluationRun)
    (models : List ModelInfo) (mid : String)
    (h : ∀ r ∈ runs, r.judgeReport = none) :
    Evaluation.buildEntry runs models mid = none := by
  unfold Evaluation.buildEntry
  dsimp only
  split
  · rfl
  · have hs : (runs.filter (fun r => r.modelId = mid)).filterMap
        (fun r => r.judgeReport) = [] := by
      rw [List.filterMap_eq_nil_iff]
      intro r hr
      exact h r (List.mem_of_mem_filter hr)
    rw [hs]
    rfl

/-- With no judged runs at all, no model produces an entry. -/
theorem preSort_nil_of_no_reports (runs : List EvaluationRun)
    (models : List ModelInfo)
    (h : ∀ r ∈ runs, r.judgeReport = none) :
    Evaluation.leaderboardEntriesPreSort runs models = [] := by
  unfold Evaluation.leaderboardEntriesPreSort
  rw [List.filterMap_eq_nil_iff]
  intro mid _
  exact buildEntry_none_of_no_reports runs models mid h

/-- C9: when every run of a batch fails (none carries a judge report), the
leaderboard `runEvaluation` returns is empty, and the batch-level error
surfaced for the all-failed batch cites the first run's recorded error
message. -/
theorem C9_all_failed_empty_leaderboard (env : Env)
    (candidateModels : List ModelInfo) (synth judgeModel : ModelInfo)
    (scenarios : List Scenario) (config : EvaluationConfig) (st : MSState)
    (first : EvaluationRun) (rest : List EvaluationRun)
    (hruns : (Evaluation.runEvaluation env candidateModels synth judgeModel
      scenarios config st).1.runs = first :: rest)
    (hfail : ∀ r ∈ (Evaluation.runEvaluation env candidateModels synth judgeModel
      scenarios config st).1.runs, r.judgeReport = none ∧ r.status = "failed") :
    (Evaluation.runEvaluation env candidateModels synth judgeModel
      scenarios config st).1.leaderboard = [] ∧
    Evaluation.surfaceBatchError ((Evaluation.runEvaluation env candidateModels
      synth judgeModel scenarios config st).1.runs) =
      some (first.metadata.errorMessage.getD "Unknown error") := by
  have hlb : (Evaluation.runEvaluation env candidateModels synth judgeModel
      scenarios config st).1.leaderboard =
      Evaluation.buildLeaderboard ((Evaluation.runEvaluation env candidateModels
        synth judgeModel scenarios config st).1.runs) candidateModels := by
    unfold Evaluation.runEvaluation
    rcases hrm : Evaluation.runsForModels env synth judgeModel scenarios config
      candidateModels [] st with ⟨allRuns, st2⟩
    simp [hrm]
  constructor
  · have hpre := preSort_nil_of_no_reports _ candidateModels
      (fun r hr => (hfail r hr).1)
    rw [hlb]
    unfold Evaluation.buildLeaderboard
    rw [hpre]
    rfl
  · rw [hruns] at hfail ⊢
    have hall : (first :: rest).all (fun r => r.status == "failed") = true := by
      rw [List.all_eq_true]
      intro r hr
      exact beq_iff_eq.mpr (hfail r hr).2
    unfold Evaluation.surfaceBatchError
    dsimp only
    rw [if_pos hall]

/-- The single failed run of the C9 batch: no OpenAI key configured. -/
def runC9 : EvaluationRun :=
  Orchestrator.failRun (Orchestrator.baseRun mCand scen0 cfg0)
    "OpenAI API key not configured. The synthetic user and judge require an OpenAI API key."

/-- C9 witness: at a batch of one model and one scenario in an environment
with no OpenAI key, the single run fails, the leaderboard is empty and the
surfaced batch error is the run's message. -/
theorem C9_all_failed_empty_leaderboard_witness :
    (Evaluation.runEvaluation envC9 [mCand] mSynth mJudge [scen0] cfg0
      st0).1.leaderboard = [] ∧
    Evaluation.surfaceBatchError ((Evaluation.runEvaluation envC9 [mCand] mSynth
      mJudge [scen0] cfg0 st0).1.runs) =
      some (runC9.metadata.errorMessage.getD "Unknown error") :=
  C9_all_failed_empty_leaderboard envC9 [mCand] mSynth mJudge [scen0] cfg0 st0
    runC9 [] rfl
    (by
      intro r hr
      rw [show (Evaluation.runEvaluation envC9 [mCand] mSynth mJudge [scen0] cfg0
        st0).1.runs = [runC9] from rfl] at hr
      simp at hr
      subst hr
      exact ⟨rfl, rfl⟩)

/-- An environment whose synthetic-user gateway fails exactly when the
ikigai phase intro line appears in the conversation: discovery completes,
the ikigai phase raises. -/
def envC4ik : Env :=
  { envBase with
    rawOpenAI := fun msgs _ =>
      if msgs.any (fun m => m.content = "Let us explore.") then .error "ikigai boom"
      else .ok (okOpenAIBody "Okay.") }

/-- The discovery result of the C4 run (its ikigai phase fails later). -/
def wfC4 : Orchestrator.WhyFinderResult :=
  match (Orchestrator.simulateWhyFinder envC4ik mCand mSynth scen0 cfg0
      (setCurrentPhase .whyFinder (resetTokenTracking st0))).1 with
  | .ok wf => wf
  | .error _ => ⟨[], none⟩

/-- The model-service state after the C4 discovery phase. -/
def st1C4 : MSState :=
  (Orchestrator.simulateWhyFinder envC4ik mCand mSynth scen0 cfg0
    (setCurrentPhase .whyFinder (resetTokenTracking st0))).2

/-- The error the C4 ikigai phase raises. -/
def eC4 : String := "Synthetic user (OpenAI) failed: OpenAI call failed: ikigai boom"

/-- C4: when the ikigai phase raises after a completed discovery phase, the
run comes back `failed`, its transcript is exactly the discovery-boundary
snapshot (`wf.transcript`, the last phase-boundary assignment before the
exception) and the metadata records the triggering error message. -/
theorem C4_failed_run_boundary_transcript (env : Env) (cand synth : ModelInfo)
    (scenario : Scenario) (config : EvaluationConfig) (st : MSState)
    (wf : Orchestrator.WhyFinderResult) (st1 : MSState) (e : String)
    (hkey : env.hasOpenAIApiKey = true)
    (hwf : Orchestrator.simulateWhyFinder env cand synth scenario config
      (setCurrentPhase .whyFinder (resetTokenTracking st)) = (.ok wf, st1))
    (hik : (Orchestrator.simulateIkigaiBuilder env cand synth scenario config
      wf.whyProfile wf.transcript (setCurrentPhase .ikigai st1)).1 = .error e) :
    (Orchestrator.runSingleEvaluation env cand synth scenario config st).1.status = "failed" ∧
    (Orchestrator.runSingleEvaluation env cand synth scenario config st).1.transcript =
      wf.transcript ∧
    (Orchestrator.runSingleEvaluation env cand synth scenario config st).1.metadata.errorMessage =
      some e := by
  unfold Orchestrator.runSingleEvaluation
  simp only [hkey, if_true]
  simp only [hwf]
  rcases hib : Orchestrator.simulateIkigaiBuilder env cand synth scenario config
    wf.whyProfile wf.transcript (setCurrentPhase .ikigai st1) with ⟨r2, st2⟩
  rw [hib] at hik
  simp only at hik
  subst hik
  simp only [hib]
  exact ⟨rfl, rfl, rfl⟩

/-- C4 witness: at the concrete environment whose synthetic user fails on
the ikigai intro, the run fails with the discovery transcript preserved
and the ikigai error recorded. -/
theorem C4_failed_run_boundary_transcript_witness :
    (Orchestrator.runSingleEvaluation envC4ik mCand mSynth scen0 cfg0 st0).1.status = "failed" ∧
    (Orchestrator.runSingleEvaluation envC4ik mCand mSynth scen0 cfg0 st0).1.transcript =
      wfC4.transcript ∧
    (Orchestrator.runSingleEvaluation envC4ik mCand mSynth scen0 cfg0 st0).1.metadata.errorMessage =
      some eC4 :=
  C4_failed_run_boundary_transcript envC4ik mCand mSynth scen0 cfg0 st0
    wfC4 st1C4 eC4 rfl rfl rfl

/-- C4 counterexample: at an environment whose candidate gateway is down,
the discovery loop had already accumulated two messages (the greeting and
the first synthetic-user turn) when the exception hit, yet the failed run's
transcript is empty — mid-phase messages are not preserved, only
phase-boundary snapshots are. -/
theorem C4_counterexample_inphase_transcript_lost :
    (Orchestrator.whyFinderGo envC4 mCand mSynth scen0 cfg0
      WHY_FINDER_TOTAL_EXCHANGES 1 [Orchestrator.initialGreetingMsg envC4]
      [⟨"assistant", envC4.initialGreeting⟩]
      (setCurrentPhase .whyFinder (resetTokenTracking st0))).transcript.length = 2 ∧
    (Orchestrator.whyFinderGo envC4 mCand mSynth scen0 cfg0
      WHY_FINDER_TOTAL_EXCHANGES 1 [Orchestrator.initialGreetingMsg envC4]
      [⟨"assistant", envC4.initialGreeting⟩]
      (setCurrentPhase .whyFinder (resetTokenTracking st0))).err ≠ none ∧
    (Orchestrator.runSingleEvaluation envC4 mCand mSynth scen0 cfg0 st0).1.status = "failed" ∧
    (Orchestrator.runSingleEvaluation envC4 mCand mSynth scen0 cfg0 st0).1.transcript = [] :=
  ⟨rfl, by decide, rfl, rfl⟩

/-- C5 (amended behaviour): a candidate gateway response with no error
field whose extracted text is empty makes `sendCandidateModelRequest`
raise — the empty content is never returned for appending. -/
theorem C5_empty_candidate_response_raises (env : Env) (model : ModelInfo)
    (messages : List ChatMsg) (options : ReqOptions) (st : MSState) (body : Json)
    (hresp : env.rawCandidate messages options = .ok body)
    (herr : optTruthy (body.getField "error") = false)
    (hempty : jsTrim (extractTextFromResponse (some body)) = "") :
    ∃ e, (sendCandidateModelRequest env model messages options st).1 = .error e := by
  unfold sendCandidateModelRequest
  simp only [hresp]
  rw [if_neg (by simp [herr])]
  rw [if_pos hempty]
  split
  · exact ⟨_, rfl⟩
  · exact ⟨_, rfl⟩

/-- C5 witness: the empty-text body at a call carrying eleven messages (the
shape of the exchange-5 coach call) makes the candidate request raise. -/
theorem C5_empty_candidate_response_raises_witness :
    ∃ e, (sendCandidateModelRequest envC5 mCand
      (List.replicate 11 ⟨"user", "x"⟩) ⟨0, 4096⟩ st0).1 = .error e :=
  C5_empty_candidate_response_raises envC5 mCand
    (List.replicate 11 ⟨"user", "x"⟩) ⟨0, 4096⟩ st0 emptyTextBody rfl rfl rfl

/-- C5 counterexample: at an environment whose candidate model returns the
empty body exactly at discovery exchange 5, the run does not continue — it
fails, the discovery loop had stopped with an error after nine
accumulated messages (none bearing exchange number 12), and the failed
run's transcript is empty. -/
theorem C5_counterexample_empty_at_exchange_five :
    (Orchestrator.runSingleEvaluation envC5 mCand mSynth scen0 cfg0 st0).1.status = "failed" ∧
    (Orchestrator.runSingleEvaluation envC5 mCand mSynth scen0 cfg0 st0).1.transcript = [] ∧
    (Orchestrator.runSingleEvaluation envC5 mCand mSynth scen0 cfg0 st0).1.metadata.errorMessage ≠
      none ∧
    (Orchestrator.whyFinderGo envC5 mCand mSynth scen0 cfg0
      WHY_FINDER_TOTAL_EXCHANGES 1 [Orchestrator.initialGreetingMsg envC5]
      [⟨"assistant", envC5.initialGreeting⟩]
      (setCurrentPhase .whyFinder (resetTokenTracking st0))).err ≠ none ∧
    ∀ m ∈ (Orchestrator.whyFinderGo envC5 mCand mSynth scen0 cfg0
      WHY_FINDER_TOTAL_EXCHANGES 1 [Orchestrator.initialGreetingMsg envC5]
      [⟨"assistant", envC5.initialGreeting⟩]
      (setCurrentPhase .whyFinder (resetTokenTracking st0))).transcript,
      m.exchangeNumber ≠ some 12 :=
  ⟨rfl, rfl, by decide, by decide, by decide⟩

/-- `flatMap` only depends on the function's values on the list. -/
theorem flatMap_congr_on {α β : Type} (l : List α) (f g : α → List β)
    (h : ∀ x ∈ l, f x = g x) : l.flatMap f = l.flatMap g := by
  induction l with
  | nil => rfl
  | cons x xs ih =>
    simp only [List.flatMap_cons]
    rw [h x (by simp), ih (fun y hy => h y (by simp [hy]))]

/-- The discovery loop, when it ends without a pending exception, appends
to the incoming transcript exactly one user/assistant pair per remaining
exchange, tagged with consecutive exchange numbers starting at `exchange`
and the sub-phase of each exchange index. -/
theorem whyFinderGo_ok_shape (env : Env) (cand synth : ModelInfo)
    (scenario : Scenario) (config : EvaluationConfig) :
    ∀ (fuel exchange : ℕ) (transcript : List TranscriptMessage)
      (history : List ChatMsg) (st : MSState),
      (Orchestrator.whyFinderGo env cand synth scenario config fuel exchange
        transcript history st).err = none →
      ∃ pairs : List (String × String), pairs.length = fuel ∧
        (Orchestrator.whyFinderGo env cand synth scenario config fuel exchange
          transcript history st).transcript =
          transcript ++ (List.zip (List.range' exchange fuel) pairs).flatMap
            (fun z => discoveryPairAt z.1 z.2) := by
  intro fuel
  induction fuel with
  | zero =>
    intro exchange transcript history st _
    exact ⟨[], rfl, by simp [Orchestrator.whyFinderGo]⟩
  | succ fuel ih =>
    intro exchange transcript history st herr
    rcases hg : Orchestrator.generateSyntheticUserResponse env synth scenario
      config history st with ⟨ru, st1⟩
    rcases ru with e | userResponse
    · simp only [Orchestrator.whyFinderGo, hg] at herr
      exact absurd herr (by simp)
    · simp only [Orchestrator.whyFinderGo, hg] at herr ⊢
      by_cases h12 : WHY_FINDER_TOTAL_EXCHANGES ≤ exchange
      · rw [if_pos h12] at herr ⊢
        rcases hc : sendCandidateModelRequest env cand
          [⟨"user", Orchestrator.forceWhyPrompt (history ++ [⟨"user", userResponse⟩])⟩]
          ⟨config.candidateTemperature, 4096⟩ st1 with ⟨rc, st2⟩
        rw [hc] at herr ⊢
        rcases rc with e | coachResponse
        · exact absurd herr (by simp)
        · simp only at herr ⊢
          by_cases hab : env.aborted = true
          · rw [if_pos hab] at herr
            exact absurd herr (by simp)
          · rw [if_neg hab] at herr ⊢
            obtain ⟨pairs, hlen, hsh⟩ := ih _ _ _ _ herr
            refine ⟨(userResponse, coachResponse) :: pairs, by simp [hlen], ?_⟩
            rw [hsh, List.range'_succ, List.zip_cons_cons, List.flatMap_cons]
            simp [discoveryPairAt]
      · rw [if_neg h12] at herr ⊢
        rcases hc : sendCandidateModelRequest env cand
          (Orchestrator.coachCallMsgs env (Orchestrator.whyPhaseOf exchange)
            (history ++ [⟨"user", userResponse⟩]) exchange)
          ⟨config.candidateTemperature, 4096⟩ st1 with ⟨rc, st2⟩
        rw [hc] at herr ⊢
        rcases rc with e | coachResponse
        · exact absurd herr (by simp)
        · simp only at herr ⊢
          by_cases hab : env.aborted = true
          · rw [if_pos hab] at herr
            exact absurd herr (by simp)
          · rw [if_neg hab] at herr ⊢
            obtain ⟨pairs, hlen, hsh⟩ := ih _ _ _ _ herr
            refine ⟨(userResponse, coachResponse) :: pairs, by simp [hlen], ?_⟩
            rw [hsh, List.range'_succ, List.zip_cons_cons, List.flatMap_cons]
            simp [discoveryPairAt]

/-- C6: a discovery phase that completes without exception produces a
transcript that is the initial greeting followed by exactly 12
user/assistant exchange pairs whose exchange numbers are 1..12 in order
(`List.range' 1 12`), each pair tagged with the sub-phase determined by its
exchange index — 1-3 `intro`, 4-6 `energy_map`, 7-9 `stories`,
10-12 `your_why`. -/
theorem C6_discovery_twelve_pairs (env : Env) (cand synth : ModelInfo)
    (scenario : Scenario) (config : EvaluationConfig) (st : MSState)
    (wf : Orchestrator.WhyFinderResult) (st' : MSState)
    (h : Orchestrator.simulateWhyFinder env cand synth scenario config st =
      (.ok wf, st')) :
    WHY_FINDER_TOTAL_EXCHANGES = 12 ∧
    (∃ pairs : List (String × String), pairs.length = 12 ∧
      wf.transcript = Orchestrator.initialGreetingMsg env ::
        (List.zip (List.range' 1 12) pairs).flatMap
          (fun z => discoveryPairAt z.1 z.2)) ∧
    (∀ k, 1 ≤ k → k ≤ 3 → Orchestrator.whyPhaseOf k = "intro") ∧
    (∀ k, 4 ≤ k → k ≤ 6 → Orchestrator.whyPhaseOf k = "energy_map") ∧
    (∀ k, 7 ≤ k → k ≤ 9 → Orchestrator.whyPhaseOf k = "stories") ∧
    (∀ k, 10 ≤ k → k ≤ 12 → Orchestrator.whyPhaseOf k = "your_why") := by
  refine ⟨rfl, ?_, ?_, ?_, ?_, ?_⟩
  · simp only [Orchestrator.simulateWhyFinder] at h
    rcases he : (Orchestrator.whyFinderGo env cand synth scenario config
        WHY_FINDER_TOTAL_EXCHANGES 1 [Orchestrator.initialGreetingMsg env]
        [⟨"assistant", env.initialGreeting⟩] st).err with _ | e
    · rw [he] at h
      simp only at h
      rcases hw : Orchestrator.extractWhyProfile env
        (Orchestrator.whyFinderGo env cand synth scenario config
          WHY_FINDER_TOTAL_EXCHANGES 1 [Orchestrator.initialGreetingMsg env]
          [⟨"assistant", env.initialGreeting⟩] st).transcript cand
        (Orchestrator.whyFinderGo env cand synth scenario config
          WHY_FINDER_TOTAL_EXCHANGES 1 [Orchestrator.initialGreetingMsg env]
          [⟨"assistant", env.initialGreeting⟩] st).st with ⟨prof, st2⟩
      rw [hw] at h
      simp only [Prod.mk.injEq, Except.ok.injEq] at h
      obtain ⟨pairs, hlen, hsh⟩ := whyFinderGo_ok_shape env cand synth scenario
        config WHY_FINDER_TOTAL_EXCHANGES 1 [Orchestrator.initialGreetingMsg env]
        [⟨"assistant", env.initialGreeting⟩] st he
      refine ⟨pairs, hlen, ?_⟩
      rw [← h.1]
      simpa using hsh
    · rw [he] at h
      simp only at h
      exact absurd h (by simp)
  · intro k _ h2
    unfold Orchestrator.whyPhaseOf
    rw [if_pos h2]
  · intro k h1 h2
    unfold Orchestrator.whyPhaseOf
    rw [if_neg (by omega), if_pos h2]
  · intro k h1 h2
    unfold Orchestrator.whyPhaseOf
    rw [if_neg (by omega), if_neg (by omega), if_pos h2]
  · intro k h1 _
    unfold Orchestrator.whyPhaseOf
    rw [if_neg (by omega), if_neg (by omega), if_neg (by omega)]

/-- The discovery result of the benign C6 run. -/
def wfC6 : Orchestrator.WhyFinderResult :=
  match (Orchestrator.simulateWhyFinder envBase mCand mSynth scen0 cfg0 st0).1 with
  | .ok wf => wf
  | .error _ => ⟨[], none⟩

/-- The model-service state after the benign C6 run. -/
def stC6 : MSState :=
  (Orchestrator.simulateWhyFinder envBase mCand mSynth scen0 cfg0 st0).2

/-- C6 witness: the benign environment completes discovery and its
transcript has the greeting plus exactly 12 tagged exchange pairs. -/
theorem C6_discovery_twelve_pairs_witness :
    WHY_FINDER_TOTAL_EXCHANGES = 12 ∧
    (∃ pairs : List (String × String), pairs.length = 12 ∧
      wfC6.transcript = Orchestrator.initialGreetingMsg envBase ::
        (List.zip (List.range' 1 12) pairs).flatMap
          (fun z => discoveryPairAt z.1 z.2)) ∧
    (∀ k, 1 ≤ k → k ≤ 3 → Orchestrator.whyPhaseOf k = "intro") ∧
    (∀ k, 4 ≤ k → k ≤ 6 → Orchestrator.whyPhaseOf k = "energy_map") ∧
    (∀ k, 7 ≤ k → k ≤ 9 → Orchestrator.whyPhaseOf k = "stories") ∧
    (∀ k, 10 ≤ k → k ≤ 12 → Orchestrator.whyPhaseOf k = "your_why") :=
  C6_discovery_twelve_pairs envBase mCand mSynth scen0 cfg0 st0 wfC6 stC6 rfl

/-- Membership in a descending insertion. -/
theorem mem_insertByDesc {α : Type} (key : α → ℚ) (x z : α) :
    ∀ l : List α, z ∈ Evaluation.insertByDesc key x l ↔ z = x ∨ z ∈ l := by
  intro l
  induction l with
  | nil => simp [Evaluation.insertByDesc]
  | cons y ys ih =>
    unfold Evaluation.insertByDesc
    split
    · simp [List.mem_cons]
    · simp [List.mem_cons, ih]
      tauto

/-- A descending insertion preserves descending pairwise order. -/
theorem pairwise_insertByDesc {α : Type} (key : α → ℚ) (x : α) (l : List α)
    (h : List.Pairwise (fun a b => key b ≤ key a) l) :
    List.Pairwise (fun a b => key b ≤ key a) (Evaluation.insertByDesc key x l) := by
  induction l with
  | nil => simp [Evaluation.insertByDesc]
  | cons y ys ih =>
    rcases List.pairwise_cons.mp h with ⟨hy, hys⟩
    unfold Evaluation.insertByDesc
    split
    · rename_i hxy
      refine List.pairwise_cons.mpr ⟨?_, h⟩
      intro z hz
      rcases List.mem_cons.mp hz with rfl | hz'
      · exact hxy
      · exact le_trans (hy z hz') hxy
    · rename_i hxy
      refine List.pairwise_cons.mpr ⟨?_, ih hys⟩
      intro z hz
      rcases (mem_insertByDesc key x z ys).mp hz with rfl | hz'
      · exact le_of_lt (lt_of_not_ge hxy)
      · exact hy z hz'

/-- The stable descending sort is pairwise descending. -/
theorem sortByDesc_pairwise {α : Type} (key : α → ℚ) (l : List α) :
    List.Pairwise (fun a b => key b ≤ key a) (Evaluation.sortByDesc key l) := by
  induction l with
  | nil => simp [Evaluation.sortByDesc]
  | cons x xs ih => exact pairwise_insertByDesc key x _ ih

/-- Filtering one key value out of a descending insertion: the inserted
element lands in front of the equal-key block, every element it passed
having a strictly greater key. -/
theorem filter_insertByDesc {α : Type} (key : α → ℚ) (q : ℚ) (x : α) :
    ∀ l : List α,
      (Evaluation.insertByDesc key x l).filter (fun e => decide (key e = q)) =
        if key x = q then x :: l.filter (fun e => decide (key e = q))
        else l.filter (fun e => decide (key e = q)) := by
  intro l
  induction l with
  | nil =>
    simp only [Evaluation.insertByDesc, List.filter_cons, List.filter_nil]
    by_cases hx : key x = q <;> simp [hx]
  | cons y ys ih =>
    unfold Evaluation.insertByDesc
    split
    · by_cases hx : key x = q <;> simp [List.filter_cons, hx]
    · rename_i hxy
      have hyx : key x < key y := lt_of_not_ge hxy
      by_cases hx : key x = q
      · have hy' : ¬ key y = q := by
          rw [hx] at hyx
          exact ne_of_gt hyx
        simp [List.filter_cons, hx, hy', ih]
      · by_cases hy : key y = q <;> simp [List.filter_cons, hx, hy, ih]

/-- Stability of the descending sort: the elements carrying any one key
value keep their original relative order. -/
theorem filter_sortByDesc {α : Type} (key : α → ℚ) (q : ℚ) (l : List α) :
    (Evaluation.sortByDesc key l).filter (fun e => decide (key e = q)) =
      l.filter (fun e => decide (key e = q)) := by
  induction l with
  | nil => rfl
  | cons x xs ih =>
    have h1 : Evaluation.sortByDesc key (x :: xs) =
        Evaluation.insertByDesc key x (Evaluation.sortByDesc key xs) := rfl
    rw [h1, filter_insertByDesc key q x]
    by_cases hx : key x = q <;> simp [List.filter_cons, hx, ih]

/-- Rank assignment keeps the list length. -/
theorem assignRanks_length :
    ∀ (i : ℕ) (l : List Evaluation.LeaderboardEntry),
      (Evaluation.assignRanks i l).length = l.length := by
  intro i l
  induction l generalizing i with
  | nil => rfl
  | cons e rest ih => simp [Evaluation.assignRanks, ih]

/-- Rank assignment writes the consecutive ranks `i, i+1, ...`. -/
theorem assignRanks_map_rank :
    ∀ (i : ℕ) (l : List Evaluation.LeaderboardEntry),
      (Evaluation.assignRanks i l).map (fun e => e.rank) = List.range' i l.length := by
  intro i l
  induction l generalizing i with
  | nil => rfl
  | cons e rest ih =>
    rw [List.length_cons, List.range'_succ]
    simp only [Evaluation.assignRanks, List.map_cons, ih]

/-- Rank assignment changes no score and no model id. -/
theorem assignRanks_map_pair :
    ∀ (i : ℕ) (l : List Evaluation.LeaderboardEntry),
      (Evaluation.assignRanks i l).map (fun e => (e.overallScore, e.modelId)) =
        l.map (fun e => (e.overallScore, e.modelId)) := by
  intro i l
  induction l generalizing i with
  | nil => rfl
  | cons e rest ih => simp [Evaluation.assignRanks, ih]

/-- Rank assignment changes no overall score. -/
theorem assignRanks_map_overall :
    ∀ (i : ℕ) (l : List Evaluation.LeaderboardEntry),
      (Evaluation.assignRanks i l).map (fun e => e.overallScore) =
        l.map (fun e => e.overallScore) := by
  intro i l
  induction l generalizing i with
  | nil => rfl
  | cons e rest ih => simp [Evaluation.assignRanks, ih]

/-- C8: the leaderboard's entries are sorted by non-increasing overall
score, their ranks are exactly the dense 1-based sequence `1..N` in list
order, and for every score value the tied entries keep the relative order
they had before sorting (their first-appearance order): the sort is
stable and rank assignment alters nothing else. -/
theorem C8_leaderboard_sorted_dense_stable (runs : List EvaluationRun)
    (models : List ModelInfo) :
    (Evaluation.buildLeaderboard runs models).map (fun e => e.rank) =
      List.range' 1 (Evaluation.buildLeaderboard runs models).length ∧
    List.Pairwise (fun a b : ℚ => b ≤ a)
      ((Evaluation.buildLeaderboard runs models).map (fun e => e.overallScore)) ∧
    ∀ q : ℚ,
      ((Evaluation.buildLeaderboard runs models).map
        (fun e => (e.overallScore, e.modelId))).filter (fun p => decide (p.1 = q)) =
      ((Evaluation.leaderboardEntriesPreSort runs models).map
        (fun e => (e.overallScore, e.modelId))).filter (fun p => decide (p.1 = q)) := by
  refine ⟨?_, ?_, ?_⟩
  · unfold Evaluation.buildLeaderboard
    rw [assignRanks_map_rank, assignRanks_length]
  · unfold Evaluation.buildLeaderboard
    rw [assignRanks_map_overall, List.pairwise_map]
    exact sortByDesc_pairwise _ _
  · intro q
    unfold Evaluation.buildLeaderboard
    rw [assignRanks_map_pair, List.filter_map, List.filter_map]
    have hc : ∀ l : List Evaluation.LeaderboardEntry,
        l.filter ((fun p : ℚ × String => decide (p.1 = q)) ∘
          (fun e => (e.overallScore, e.modelId))) =
        l.filter (fun e => decide (e.overallScore = q)) :=
      fun l => List.filter_congr (fun e _ => rfl)
    rw [hc, hc, filter_sortByDesc
      (fun e : Evaluation.LeaderboardEntry => e.overallScore) q
      (Evaluation.leaderboardEntriesPreSort runs models)]

end BDEval
